import Mathlib

/-!
Verification of the edge-api repository (an edge-deployed HTTP API gateway).

This file shallowly embeds the handlers of the repository in Lean:

* `src/src/index.ts` — the legacy monolithic worker (`/status`, `/data`,
  `/weather`), whose `/data` provider loop and `/weather` handler are
  embedded as `runDataLoop` / `handleData` and `weatherLegacy`;
* `src/unnamed/part_003` — the modular weather handlers
  (`handleWeatherNow`, `handleWeatherForecast`, `parseForecastQuery`,
  `clampDays`, `parseOpenMeteoNow`, `parseMetNoNow`, `mapOpenMeteoDaily`);
* `src/unnamed/part_004` — the modular `/data` handler (same loop body as
  the one in `index.ts`, embedded once);
* `src/unnamed/part_002` — the generic byte-range video proxy
  (`handleVideo`), embedded as the header-filtering pipeline
  (`copyAllowed`, `buildProxyHeaders`) plus `videoProxyResponse`;
* `src/unnamed/part_000` — the camera bridge proxies (`handleCameraStream`,
  `handleCameraPtz`);
* `src/unnamed/part_001` — the webcam aliases (`handleWebcamStream`,
  `handleWebcamPtz`).

Modelling conventions, used consistently below:

* JSON values are the inductive `J`; JavaScript `undefined` is represented
  by `Option.none` at access sites (`jget` returns `none` for a missing
  field), while JSON `null` is `J.null`.  `x ?? null` is `nn`.
* Machine numbers are `ℚ`.  JavaScript `Number(s)` is modelled by
  `jsNumber : String → Option ℚ` implementing the `StrNumericLiteral`
  grammar: surrounding whitespace, the empty string as 0, an optional sign
  over decimal literals with fractional part and exponent, and unsigned
  `0x`/`0o`/`0b` radix literals.  `none` stands for NaN and ±Infinity
  (`Number.isFinite` false); magnitudes at or above `2 ^ 1024` are mapped
  to `none`, as binary64 overflows them to Infinity.  Two disclosed
  abstractions of binary64 remain: parsed values are kept as exact
  rationals (the final round-to-nearest-double step is not applied — a
  relative error below one part in `2 ^ 52`, observable only for inputs
  engineered within that error of the integer bounds 1, 16, ±90, ±180 the
  handlers compare against), and the overflow cutoff sits at `2 ^ 1024`
  rather than the exact round-to-even boundary `2 ^ 1024 - 2 ^ 970`.
* HTTP header maps are association lists with lowercased names (header
  names are case-insensitive); `hget` is `Headers.get` (`none` = absent)
  and `hset` is `Headers.set`.  In the embedded code every `set` targets a
  name not yet present in the map being built, so `hset` is modelled as an
  append.
* Effects are made explicit: upstream fetch results, the edge-cache lookup
  result and `new Date().toISOString()` are parameters, and cache/fetch
  side effects are reported as an `Ev` event trace.
-/

/-- JSON values. `J.null` is JSON null; a missing key is `Option.none`. -/
inductive J where
  | null
  | jbool (b : Bool)
  | num (q : ℚ)
  | str (s : String)
  | arr (elems : List J)
  | obj (fields : List (String × J))

/-- Field access `x.k` on a JSON value: `none` models `undefined`. -/
def jget (d : J) (k : String) : Option J :=
  match d with
  | J.obj fs => (fs.find? (fun p => p.1 == k)).map (fun p => p.2)
  | _ => none

/-- JavaScript `x ?? null`: `undefined` collapses to `null`. -/
def nn (o : Option J) : J :=
  match o with
  | some v => v
  | none => J.null

/-- JavaScript truthiness of a possibly-undefined JSON value. -/
def jtruthy (o : Option J) : Bool :=
  match o with
  | none => false
  | some J.null => false
  | some (J.jbool b) => b
  | some (J.num q) => q != 0
  | some (J.str s) => s != ""
  | some (J.arr _) => true
  | some (J.obj _) => true

/-- JavaScript truthiness of a nullable string (query params, env vars). -/
def truthy (o : Option String) : Bool :=
  match o with
  | none => false
  | some s => s != ""

/-- Value of a digit list, most significant first. -/
def digitsToNat (cs : List Char) : ℕ :=
  cs.foldl (fun a c => a * 10 + (c.toNat - 48)) 0

/-- Numeric value of a hexadecimal digit character, if it is one. -/
def hexDigitVal (c : Char) : Option ℕ :=
  if '0' ≤ c && c ≤ '9' then some (c.toNat - 48)
  else if 'a' ≤ c && c ≤ 'f' then some (c.toNat - 87)
  else if 'A' ≤ c && c ≤ 'F' then some (c.toNat - 55)
  else none

/-- Value of a nonempty digit string in base `b` (digits drawn from the
hexadecimal set, each required to be below `b`); `none` on an empty string
or a digit out of range, as the corresponding JavaScript literal is NaN. -/
def radixDigits (b : ℕ) (cs : List Char) : Option ℕ :=
  match cs with
  | [] => none
  | _ =>
    cs.foldl (fun acc c =>
      match acc, hexDigitVal c with
      | some a, some d => if d < b then some (a * b + d) else none
      | _, _ => none) (some 0)

/-- The signed-integer exponent after `e`/`E` in a JavaScript decimal
literal (`SignedInteger`): optional sign, then decimal digits. -/
def parseExpInt (cs : List Char) : Option ℤ :=
  match cs with
  | [] => none
  | c :: rest =>
    if c == '+' then (radixDigits 10 rest).map (fun n => (n : ℤ))
    else if c == '-' then (radixDigits 10 rest).map (fun n => -(n : ℤ))
    else (radixDigits 10 cs).map (fun n => (n : ℤ))

/-- Exact rational value of a decimal literal whose digits (integer and
fractional parts concatenated) have value `m`, with `fracLen` fractional
digits and exponent `ex`: mathematically `m * 10 ^ (ex - fracLen)`.  The
nonnegative-exponent branch stays inside `ℕ` so that concrete integral
literals evaluate by kernel reduction. -/
def jsDecValue (m fracLen : ℕ) (ex : ℤ) : ℚ :=
  let e : ℤ := ex - fracLen
  if 0 ≤ e then ((m * 10 ^ e.toNat : ℕ) : ℚ)
  else (m : ℚ) / ((10 ^ (-e).toNat : ℕ) : ℚ)

/-- A JavaScript unsigned decimal literal, per `StrUnsignedDecimalLiteral`:
`digits [. digits] [e signed]` or `. digits [e signed]`; `none` models NaN
(empty mantissa, a bad exponent, or trailing garbage). -/
def parseDecExp (cs : List Char) : Option ℚ :=
  let ip := cs.takeWhile Char.isDigit
  let rest1 := cs.dropWhile Char.isDigit
  match rest1 with
  | [] => if ip.isEmpty then none else some (digitsToNat ip : ℚ)
  | c :: rest2 =>
    if c == '.' then
      let fs := rest2.takeWhile Char.isDigit
      let rest3 := rest2.dropWhile Char.isDigit
      if ip.isEmpty && fs.isEmpty then none
      else
        match rest3 with
        | [] => some (jsDecValue (digitsToNat (ip ++ fs)) fs.length 0)
        | e :: ds =>
          if e == 'e' || e == 'E' then
            (parseExpInt ds).map (fun k =>
              jsDecValue (digitsToNat (ip ++ fs)) fs.length k)
          else none
    else if c == 'e' || c == 'E' then
      if ip.isEmpty then none
      else (parseExpInt rest2).map (fun k => jsDecValue (digitsToNat ip) 0 k)
    else none

/-- A JavaScript unsigned numeric literal: a `0x`/`0o`/`0b` radix integer
literal (the grammar admits no sign before these) or a decimal literal. -/
def parseUnsignedJs (cs : List Char) : Option ℚ :=
  match cs with
  | c0 :: c1 :: rest =>
    if c0 == '0' && (c1 == 'x' || c1 == 'X') then
      (radixDigits 16 rest).map (fun n => (n : ℚ))
    else if c0 == '0' && (c1 == 'o' || c1 == 'O') then
      (radixDigits 8 rest).map (fun n => (n : ℚ))
    else if c0 == '0' && (c1 == 'b' || c1 == 'B') then
      (radixDigits 2 rest).map (fun n => (n : ℚ))
    else parseDecExp cs
  | _ => parseDecExp cs

/-- Leading and trailing whitespace removal, on characters (`Number(s)`
ignores surrounding whitespace). -/
def trimChars (cs : List Char) : List Char :=
  ((cs.dropWhile Char.isWhitespace).reverse.dropWhile Char.isWhitespace).reverse

/-- The magnitude at which binary64 overflows to Infinity, `2 ^ 1024`
(written in a nested form the kernel evaluates within its recursion
limit; see `jsMaxMag_eq`). -/
def jsMaxMag : ℕ := (2 ^ 256) ^ 4

/-- The finiteness filter of `Number`: values of magnitude at least
`2 ^ 1024` overflow binary64 to ±Infinity, which every use site here then
rejects through `Number.isFinite`, so they collapse to `none`. -/
def finiteJs (q : ℚ) : Option ℚ :=
  if (jsMaxMag : ℚ) ≤ (if q < 0 then -q else q) then none else some q

/-- JavaScript `Number(s)` restricted to finite results: `none` stands for
NaN or ±Infinity (so `Number.isFinite(Number(s))` is `isSome`).  Implements
the `StrNumericLiteral` grammar — whitespace trimming, empty string as 0,
optional sign over decimal literals with fraction and exponent, unsigned
hex/octal/binary literals — with the literal `"Infinity"` and overflowing
magnitudes both mapped to `none`; see the header comment for the two
disclosed binary64 abstractions. -/
def jsNumber (s : String) : Option ℚ :=
  (match trimChars s.toList with
   | [] => some 0
   | c :: rest =>
     if c == '-' then (parseDecExp rest).map (fun q => -q)
     else if c == '+' then parseDecExp rest
     else parseUnsignedJs (c :: rest)).bind finiteJs

/-- Embeds `clampDays` of `src/unnamed/part_003` (lines 145-149):
`const n = daysStr ? Number(daysStr) : 16; if (!Number.isFinite(n)) return 16;
return Math.max(1, Math.min(16, n));`.  The `daysStr ?` truthiness test
makes both an absent and an empty parameter default to 16. -/
def clampDays (daysStr : Option String) : ℚ :=
  match daysStr with
  | none => 16
  | some s =>
    if s == "" then 16
    else
      match jsNumber s with
      | none => 16
      | some n => max 1 (min 16 n)

/-- Header maps: association lists of (lowercased name, value). -/
abbrev HMap : Type := List (String × String)

/-- ASCII lowercasing of a header name (header names are case-insensitive). -/
def lowerStr (s : String) : String := ⟨s.data.map Char.toLower⟩

/-- `Headers.get(n)` — case-insensitive, first matching entry. -/
def hget (hs : HMap) (n : String) : Option String :=
  (List.find? (fun p => p.1 == lowerStr n) hs).map (fun p => p.2)

/-- `Headers.set(n, v)`.  In every construction embedded here the name being
set is not yet present in the map under construction, so the semantics of
`set` coincides with appending the entry. -/
def hset (hs : HMap) (n v : String) : HMap :=
  hs ++ [(lowerStr n, v)]

/-- One step of the copy loops in `handleVideo` / `handleCameraStream`:
`const v = src.get(h); if (v) dst.set(h, v);` — copy when present and
nonempty (JS string truthiness). -/
def copyIfTruthy (src : HMap) (dst : HMap) (n : String) : HMap :=
  match hget src n with
  | some v => if v == "" then dst else hset dst n v
  | none => dst

/-- The `for (const h of names)` copy loop, starting from empty headers.
Used for both the forwarded-request headers and the relayed-response
headers in `src/unnamed/part_002` (lines 51-55 and 78-82) and
`src/unnamed/part_000` (lines 24-28 and 33-35). -/
def copyAllowed (names : List String) (src : HMap) : HMap :=
  names.foldl (fun acc n => copyIfTruthy src acc n) []

/-- Request-header allow-list of the proxies (`part_002` line 52,
`part_000` line 25). -/
def reqAllowList : List String :=
  ["Range", "If-Range", "If-None-Match", "If-Modified-Since"]

/-- The same names lowercased, as they appear in a built header map. -/
def reqAllowLower : List String :=
  ["range", "if-range", "if-none-match", "if-modified-since"]

/-- Response-header keep-list of `handleVideo` (`part_002` lines 65-77). -/
def respKeepVideo : List String :=
  ["content-type", "content-length", "accept-ranges", "content-range",
   "etag", "last-modified", "date", "cache-control", "expires", "vary",
   "location"]

/-- Response-header keep-list of `handleCameraStream` (`part_000` line 33):
the video list without `location`. -/
def respKeepCamera : List String :=
  ["content-type", "content-length", "accept-ranges", "content-range",
   "etag", "last-modified", "date", "cache-control", "expires", "vary"]

/-- Forwarded-request headers of `handleVideo` (`part_002` lines 51-55). -/
def forwardHeaders (req : HMap) : HMap :=
  copyAllowed reqAllowList req

/-- Forwarded-request headers of `handleCameraStream` (`part_000` lines
24-29): the allow-listed copies plus, when the configured token is truthy,
an injected bearer `Authorization` header. -/
def cameraForwardHeaders (req : HMap) (bridgeToken : Option String) : HMap :=
  match bridgeToken with
  | some t => if t == "" then forwardHeaders req
              else hset (forwardHeaders req) "Authorization" ("Bearer " ++ t)
  | none => forwardHeaders req

/-- Relayed-response headers of the proxies (`part_002` lines 78-86,
`part_000` lines 33-37): keep-listed copies, then
`Access-Control-Allow-Origin: *`, then `Accept-Ranges: bytes` if the map
has no `accept-ranges` entry yet. -/
def buildProxyHeaders (keep : List String) (up : HMap) : HMap :=
  let out := copyAllowed keep up
  let out := hset out "Access-Control-Allow-Origin" "*"
  if (hget out "accept-ranges").isSome then out
  else hset out "Accept-Ranges" "bytes"

/-- Response bodies: JSON, a relayed byte stream (abstract tag, `none` for a
null body), plain text, or the empty body of `new Response(null, ...)`. -/
inductive RespBody where
  | jsonB (j : J)
  | streamB (b : Option String)
  | textB (s : String)
  | emptyB

/-- A client-facing HTTP response: status, headers, body. -/
structure Resp where
  status : ℕ
  headers : HMap
  body : RespBody

/-- JSON body of a response, if it has one. -/
def bodyJson (r : Resp) : Option J :=
  match r.body with
  | RespBody.jsonB j => some j
  | _ => none

/-- An upstream response seen by a streaming proxy: status, headers and an
abstract body stream (`none` models a null body). -/
structure UpResp where
  status : ℕ
  headers : HMap
  body : Option String

/-- Response built by `handleVideo` from the upstream response (`part_002`
lines 78-92): upstream status verbatim, filtered headers, and the upstream
body stream except for HEAD requests (`null` body). -/
def videoProxyResponse (method : String) (up : UpResp) : Resp :=
  { status := up.status
    headers := buildProxyHeaders respKeepVideo up.headers
    body := RespBody.streamB (if method == "HEAD" then none else up.body) }

/-- Response relay of `handleCameraStream` (`part_000` lines 33-39). -/
def cameraProxyResponse (method : String) (up : UpResp) : Resp :=
  { status := up.status
    headers := buildProxyHeaders respKeepCamera up.headers
    body := RespBody.streamB (if method == "HEAD" then none else up.body) }

/-- One entry of the `next3h` timeline (`part_003` line 23). -/
structure WEntry where
  time : String
  precipitation_mm : Option ℚ
  precipitation_probability : Option ℚ

/-- The `current` record of `WeatherPayload` (`part_003` lines 16-22).
Field values are JSON values (`weather_code` may be a string or a number;
null-coalescing keeps `J.null` for missing data). -/
structure WCurrent where
  temperature_c : J
  precipitation_mm : J
  weather_code : J
  wind_speed_10m : J
  time : J

/-- The normalized weather payload (`part_003` lines 13-24). -/
structure WeatherPayload where
  lat : ℚ
  lon : ℚ
  current : Option WCurrent
  next3h : List WEntry

/-- Lexicographic strict comparison of character lists: JavaScript `<` on
strings compares code units left to right. -/
def lexLt : List Char → List Char → Bool
  | [], [] => false
  | [], _ :: _ => true
  | _ :: _, [] => false
  | a :: as, b :: bs => if a < b then true else if b < a then false else lexLt as bs

/-- JavaScript `a < b` on strings. -/
def jsStrLt (a b : String) : Bool := lexLt a.toList b.toList

/-- JavaScript `a >= b` on strings: the negation of `a < b`. -/
def jsStrGe (a b : String) : Bool := !(lexLt a.toList b.toList)

/-- An element of an hourly `time` array, coerced to a string; the upstream
type declares `string[]` (`part_003` line 243). -/
def asStr (j : J) : String :=
  match j with
  | J.str s => s
  | _ => ""

/-- Element of a numeric-or-null array, as used by `precip[i] ?? null`. -/
def toOptQ (j : J) : Option ℚ :=
  match j with
  | J.num q => some q
  | _ => none

/-- JavaScript `x || []` on an expected array (`part_003` lines 244-245):
a non-array value never contributes elements, since indexing it yields
`undefined`, which `?? null` collapses to `null`. -/
def jsOrEmptyList (o : Option J) : List J :=
  match o with
  | some (J.arr l) => l
  | _ => []

/-- JavaScript `x || case 1` on an expected object (`part_003` lines 267-268). -/
def jOrEmptyObj (o : Option J) : J :=
  if jtruthy o then nn o else J.obj []

/-- The body of the `for` loop building `next3h` (`part_003` lines 247-257,
identically `src/src/index.ts` lines 203-212): walk the hourly entries with
their index `i`, keep an entry when `times[i] >= nowIso` (string
comparison), and break once three entries have been pushed.  `cnt` is the
number of entries pushed so far. -/
def next3hGo (nowIso : String) (precip pprob : List J) :
    List J → ℕ → ℕ → List WEntry
  | [], _, _ => []
  | t :: ts, i, cnt =>
    if jsStrGe (asStr t) nowIso then
      let e : WEntry :=
        ⟨asStr t, toOptQ (precip.getD i J.null), toOptQ (pprob.getD i J.null)⟩
      if cnt + 1 ≥ 3 then [e]
      else e :: next3hGo nowIso precip pprob ts (i + 1) (cnt + 1)
    else next3hGo nowIso precip pprob ts (i + 1) cnt

/-- The `next3h` selection of the open-meteo transform, from the hourly
arrays and the current instant `nowIso` (`new Date().toISOString()`). -/
def buildNext3h (nowIso : String) (times precip pprob : List J) : List WEntry :=
  next3hGo nowIso precip pprob times 0 0

/-- Specification-side rendering of the `next3h` selection as worded by the
spec, with the comparison made at-or-after: the first three entries of the
hourly array whose timestamp compares `>=` the current ISO instant, in
upstream order, paired with their precipitation columns. -/
def next3hSpecGE (nowIso : String) (times precip pprob : List J) : List WEntry :=
  ((times.enum.filter (fun p => jsStrGe (asStr p.2) nowIso)).take 3).map
    (fun p => ⟨asStr p.2, toOptQ (precip.getD p.1 J.null),
               toOptQ (pprob.getD p.1 J.null)⟩)

/-- Embeds `parseOpenMeteoNow` (`part_003` lines 218-259); the identical
inline code sits at `src/src/index.ts` lines 170-213.  `nowIso` is the
value of `new Date().toISOString()`. -/
def parseOpenMeteoNow (nowIso : String) (data : J) (lat lon : ℚ) :
    WeatherPayload :=
  let current : Option WCurrent :=
    if jtruthy (jget data "current") then
      let c := nn (jget data "current")
      some ⟨nn (jget c "temperature_2m"), nn (jget c "precipitation"),
            nn (jget c "weather_code"), nn (jget c "wind_speed_10m"),
            nn (jget c "time")⟩
    else if jtruthy (jget data "current_weather") then
      let c := nn (jget data "current_weather")
      some ⟨nn (jget c "temperature"), J.null, nn (jget c "weathercode"),
            nn (jget c "windspeed"), nn (jget c "time")⟩
    else none
  let next3h : List WEntry :=
    if jtruthy (jget data "hourly") then
      match jget (nn (jget data "hourly")) "time" with
      | some (J.arr times) =>
        buildNext3h nowIso times
          (jsOrEmptyList (jget (nn (jget data "hourly")) "precipitation"))
          (jsOrEmptyList (jget (nn (jget data "hourly")) "precipitation_probability"))
      | _ => []
    else []
  ⟨lat, lon, current, next3h⟩

/-- The met.no `next3h` loop (`part_003` lines 277-288): skip entries whose
`time` is falsy or before `nowIso`, push at most three.  An entry whose
`time` field is not a string is skipped (the upstream type declares it a
string; a missing one is falsy). -/
def metNoNext3h (nowIso : String) : List J → ℕ → List WEntry
  | [], _ => []
  | entry :: rest, cnt =>
    match jget entry "time" with
    | some (J.str t) =>
      if t == "" || jsStrLt t nowIso then metNoNext3h nowIso rest cnt
      else
        let n1h := jOrEmptyObj
          (jget (nn (jget (nn (jget entry "data")) "next_1_hours")) "details")
        let e : WEntry := ⟨t, toOptQ (nn (jget n1h "precipitation_amount")), none⟩
        if cnt + 1 ≥ 3 then [e]
        else e :: metNoNext3h nowIso rest (cnt + 1)
    | _ => metNoNext3h nowIso rest cnt

/-- Embeds `parseMetNoNow` (`part_003` lines 261-291). -/
def parseMetNoNow (nowIso : String) (data : J) (lat lon : ℚ) : WeatherPayload :=
  match jget (nn (jget data "properties")) "timeseries" with
  | some (J.arr (first :: rest)) =>
    let details := jOrEmptyObj
      (jget (nn (jget (nn (jget first "data")) "instant")) "details")
    let n1 := jOrEmptyObj
      (jget (nn (jget (nn (jget first "data")) "next_1_hours")) "details")
    let current : Option WCurrent :=
      some ⟨nn (jget details "air_temperature"),
            nn (jget n1 "precipitation_amount"),
            nn (jget (nn (jget (nn (jget (nn (jget first "data")) "next_1_hours"))
                  "summary")) "symbol_code"),
            nn (jget details "wind_speed"),
            nn (jget first "time")⟩
    ⟨lat, lon, current, metNoNext3h nowIso (first :: rest) 0⟩
  | _ => ⟨lat, lon, none, []⟩

/-- JSON rendering of an optional rational (null-preserving). -/
def oqJ (o : Option ℚ) : J :=
  match o with
  | none => J.null
  | some q => J.num q

/-- JSON rendering of a `next3h` entry, as `JSON.stringify` lays it out. -/
def WEntry.toJ (e : WEntry) : J :=
  J.obj [("time", J.str e.time), ("precipitation_mm", oqJ e.precipitation_mm),
         ("precipitation_probability", oqJ e.precipitation_probability)]

/-- JSON rendering of the `current` record. -/
def WCurrent.toJ (c : WCurrent) : J :=
  J.obj [("temperature_c", c.temperature_c),
         ("precipitation_mm", c.precipitation_mm),
         ("weather_code", c.weather_code),
         ("wind_speed_10m", c.wind_speed_10m), ("time", c.time)]

/-- JSON rendering of the normalized weather payload. -/
def WeatherPayload.toJ (w : WeatherPayload) : J :=
  J.obj [("lat", J.num w.lat), ("lon", J.num w.lon),
         ("current", match w.current with
                     | some c => c.toJ
                     | none => J.null),
         ("next3h", J.arr (w.next3h.map WEntry.toJ))]

/-- Outcome of one upstream fetch attempt inside a provider loop: a caught
exception (network error or abort), or a settled HTTP response whose JSON
body parsed as `data`. -/
inductive UResult where
  | errU
  | resp (status : ℕ) (data : J)

/-- A provider of a fallback chain: a name and a payload transform, as in
the provider records of `src/src/index.ts` lines 38-49, `part_004` lines
79-90 and `part_003` lines 60-71.  `α` is the normalized payload type. -/
structure Prov (α : Type) where
  name : String
  transform : J → α

/-- Observable side effects of a JSON handler: the edge-cache lookup, an
upstream fetch of a named provider, and the asynchronous cache store. -/
inductive Ev where
  | lookupC
  | fetchP (name : String)
  | storeC (r : Resp)

/-- Names of the fetch events in a trace, in order. -/
def fetchNames (evs : List Ev) : List String :=
  evs.filterMap (fun e => match e with
                          | Ev.fetchP n => some n
                          | _ => none)

/-- `upstream.ok`: HTTP status in the 2xx range. -/
def isOk (s : ℕ) : Bool := 200 ≤ s && s ≤ 299

/-- The transient-failure statuses of the loops:
`status === 403 || status === 429 || status >= 500`. -/
def retryable (s : ℕ) : Bool := s == 403 || s == 429 || 500 ≤ s

/-- The common `Content-Type: application/json` response header. -/
def ctJson : HMap := [("content-type", "application/json")]

/-- The 502 body `JSON.stringify({error:..., status: upstream.status})`
shared by the `/data` and `/weather` loops. -/
def upstreamErrResp (s : ℕ) : Resp :=
  ⟨502, ctJson,
   RespBody.jsonB (J.obj [("error", J.str "Upstream API error"),
                          ("status", J.num (s : ℚ))])⟩

/-- The provider loop shared by the `/data` handler (`src/src/index.ts`
lines 56-108, `part_004` lines 96-138) and `handleWeatherNow` (`part_003`
lines 73-97), parameterized by the success response builder `mk` and the
all-failed response `af`.  For each provider in turn: a thrown fetch (or
abort) continues to the next provider; a non-ok status continues when it is
403/429/>=500 and otherwise returns the 502 response at once; an ok status
builds the success response, schedules the cache store and returns.  The
second component is the event trace of the loop. -/
def runLoop {α : Type} (mk : String → α → Resp) (af : Resp) :
    List (Prov α × UResult) → Resp × List Ev
  | [] => (af, [])
  | (p, UResult.errU) :: rest =>
    let r := runLoop mk af rest
    (r.1, Ev.fetchP p.name :: r.2)
  | (p, UResult.resp s d) :: rest =>
    if isOk s then
      let out := mk p.name (p.transform d)
      (out, [Ev.fetchP p.name, Ev.storeC out])
    else if retryable s then
      let r := runLoop mk af rest
      (r.1, Ev.fetchP p.name :: r.2)
    else (upstreamErrResp s, [Ev.fetchP p.name])

/-- Success response of the `/data` loop: 200, JSON content type, a 30s
client/edge cache header, body `{provider, payload}`. -/
def dataSuccessResp (name : String) (payload : J) : Resp :=
  ⟨200, [("content-type", "application/json"),
         ("cache-control", "public, max-age=30")],
   RespBody.jsonB (J.obj [("provider", J.str name), ("payload", payload)])⟩

/-- The all-failed 504 response of the `/data` loop. -/
def dataAllFailedResp : Resp :=
  ⟨504, ctJson, RespBody.jsonB (J.obj [("error", J.str "All providers failed")])⟩

/-- The `/data` provider loop (`src/src/index.ts` lines 56-108). -/
def runDataLoop (l : List (Prov J × UResult)) : Resp × List Ev :=
  runLoop dataSuccessResp dataAllFailedResp l

/-- The fixed `/data` providers.  The chucknorris transform builds
`{joke: d.value}`; a missing `value` is rendered as null (the JSON
serialization of the actual handler would drop the undefined field, a
difference no claim below observes). -/
def dataProviders : List (Prov J) :=
  [⟨"coingecko", fun d => d⟩,
   ⟨"chucknorris", fun d => J.obj [("joke", nn (jget d "value"))]⟩]

/-- The `/data` handler (`src/src/index.ts` lines 25-111, `part_004`):
edge-cache lookup first, a cache hit returned as-is, otherwise the provider
loop over the two fixed providers with upstream results `u1`, `u2`. -/
def handleData (cached : Option Resp) (u1 u2 : UResult) : Resp × List Ev :=
  match cached with
  | some r => (r, [Ev.lookupC])
  | none =>
    let res := runDataLoop (dataProviders.zip [u1, u2])
    (res.1, Ev.lookupC :: res.2)

/-- Success response of `handleWeatherNow`: 200, JSON content type, a 120s
cache header, and the serialized payload as the whole body (`part_003` line
90 with the `json` helper of lines 333-336). -/
def weatherSuccessResp (payload : WeatherPayload) : Resp :=
  ⟨200, [("content-type", "application/json"),
         ("cache-control", "public, max-age=120")],
   RespBody.jsonB payload.toJ⟩

/-- The all-failed 504 response of the weather loop (`part_003` line 97). -/
def weatherAllFailedResp : Resp :=
  ⟨504, ctJson,
   RespBody.jsonB (J.obj [("error", J.str "All weather providers failed")])⟩

/-- The `/weather` provider loop of `handleWeatherNow` (`part_003` lines
74-96).  The success body carries the parsed payload only. -/
def runWeatherLoop (l : List (Prov WeatherPayload × UResult)) : Resp × List Ev :=
  runLoop (fun _ payload => weatherSuccessResp payload) weatherAllFailedResp l

/-- The weather provider list of `part_003` lines 60-71, with the shared
current instant and validated coordinates baked into the transforms. -/
def weatherProviders (nowIso : String) (lat lon : ℚ) :
    List (Prov WeatherPayload) :=
  [⟨"open-meteo", fun d => parseOpenMeteoNow nowIso d lat lon⟩,
   ⟨"met-no", fun d => parseMetNoNow nowIso d lat lon⟩]

/-- A 400 response of the weather validators (`part_003` line 42,
`src/src/index.ts` lines 119-122). -/
def badReqW (msg : String) : Resp :=
  ⟨400, ctJson, RespBody.jsonB (J.obj [("error", J.str msg)])⟩

/-- Embeds `handleWeatherNow` (`part_003` lines 39-101): validate `lat` and
`lon` (presence by truthiness, then `Number` finiteness, then range), look
the exact URL up in the edge cache, and on a miss run the two-provider
fallback loop with upstream results `u1`, `u2`. -/
def handleWeatherNow (latStr lonStr : Option String) (cached : Option Resp)
    (nowIso : String) (u1 u2 : UResult) : Resp × List Ev :=
  if !truthy latStr || !truthy lonStr then
    (badReqW "Missing required query params: lat and lon", [])
  else
    match jsNumber (latStr.getD ""), jsNumber (lonStr.getD "") with
    | some lat, some lon =>
      if ¬(-90 ≤ lat ∧ lat ≤ 90) ∨ ¬(-180 ≤ lon ∧ lon ≤ 180) then
        (badReqW "lat must be between -90..90 and lon between -180..180", [])
      else
        match cached with
        | some r => (r, [Ev.lookupC])
        | none =>
          let res := runWeatherLoop ((weatherProviders nowIso lat lon).zip [u1, u2])
          (res.1, Ev.lookupC :: res.2)
    | _, _ => (badReqW "lat and lon must be numbers", [])

/-- Outcome of the single upstream fetch of the legacy `/weather` handler,
including the whole `try` block after validation: `ok` when fetch and JSON
parse settled, `abortE` when the caught error is an `AbortError`, `otherE`
for any other caught error. -/
inductive LegacyFetch where
  | abortE
  | otherE
  | ok (status : ℕ) (data : J)

/-- Embeds the legacy `/weather` handler of `src/src/index.ts` lines
115-240: same validation and cache fast path, a single open-meteo fetch,
502 on a non-ok status, and a catch branch returning 504 for an abort and
500 for any other error (lines 231-236). -/
def weatherLegacy (latStr lonStr : Option String) (cached : Option Resp)
    (nowIso : String) (f : LegacyFetch) : Resp :=
  if !truthy latStr || !truthy lonStr then
    badReqW "Missing required query params: lat and lon"
  else
    match jsNumber (latStr.getD ""), jsNumber (lonStr.getD "") with
    | some lat, some lon =>
      if lat < -90 ∨ lat > 90 ∨ lon < -180 ∨ lon > 180 then
        badReqW "lat must be between -90..90 and lon between -180..180"
      else
        match cached with
        | some r => r
        | none =>
          match f with
          | LegacyFetch.ok s d =>
            if !isOk s then upstreamErrResp s
            else weatherSuccessResp (parseOpenMeteoNow nowIso d lat lon)
          | LegacyFetch.abortE =>
            ⟨504, ctJson,
             RespBody.jsonB (J.obj [("error", J.str "Weather fetch failed")])⟩
          | LegacyFetch.otherE =>
            ⟨500, ctJson,
             RespBody.jsonB (J.obj [("error", J.str "Weather fetch failed")])⟩
    | _, _ => badReqW "lat and lon must be numbers"

/-- Claim-side classification: an upstream result is decisive when the loop
stops at it (a 2xx success, or a terminal non-retryable status); errors and
403/429/5xx responses are skipped. -/
def decisive (r : UResult) : Bool :=
  match r with
  | UResult.errU => false
  | UResult.resp s _ => isOk s || !retryable s

/-- Claim-side outcome of a fallback chain. -/
inductive COut (α : Type) where
  | success (name : String) (payload : α)
  | rejected (status : ℕ)
  | allFailed

/-- Claim-side characterization of a fallback chain, as the claim words it:
the first decisive provider result decides the outcome — success for a 2xx,
rejection for any other non-retryable status — and a chain in which every
provider is skipped or errored is all-failed. -/
def chainSpec {α : Type} : List (Prov α × UResult) → COut α
  | [] => COut.allFailed
  | (p, r) :: rest =>
    if decisive r then
      match r with
      | UResult.resp s d =>
        if isOk s then COut.success p.name (p.transform d) else COut.rejected s
      | UResult.errU => COut.allFailed
    else chainSpec rest

/-- Claim-side attempted providers: every provider up to and including the
first decisive one is fetched; none after it is. -/
def attemptedN {α : Type} : List (Prov α × UResult) → List String
  | [] => []
  | (p, r) :: rest =>
    if decisive r then [p.name] else p.name :: attemptedN rest

/-- Result of `parseForecastQuery`: a 400 error message, or normalized
coordinates with optional place metadata. -/
inductive ParseFQ where
  | errF (msg : String)
  | okF (lat lon : ℚ) (place : List (String × J))

/-- Result of the geocoding fetch inside `parseForecastQuery`: a non-ok
status, an ok response without a first result, or a first result. -/
inductive GeoUp where
  | failG (status : ℕ)
  | emptyG
  | okG (lat lon : ℚ) (nm : String) (country : Option String)

/-- Embeds `parseForecastQuery` (`part_003` lines 157-187): reject when `q`
and a coordinate are both truthy; geocode a truthy `q`; otherwise require
both coordinates truthy, finite and in range. -/
def parseForecastQuery (q latStr lonStr : Option String) (geo : GeoUp) :
    ParseFQ :=
  if truthy q && (truthy latStr || truthy lonStr) then
    ParseFQ.errF "Provide either q (city name) OR lat/lon, not both"
  else if truthy q then
    match geo with
    | GeoUp.failG s => ParseFQ.errF ("Geocoding failed (status " ++ toString s ++ ")")
    | GeoUp.emptyG => ParseFQ.errF "City not found"
    | GeoUp.okG la lo nm country =>
      ParseFQ.okF la lo
        ([("name", J.str nm)] ++
          match country with
          | some c => [("country", J.str c)]
          | none => [])
  else if !truthy latStr || !truthy lonStr then
    ParseFQ.errF "Provide q (city name) or both lat and lon"
  else
    match jsNumber (latStr.getD ""), jsNumber (lonStr.getD "") with
    | some lat, some lon =>
      if ¬(-90 ≤ lat ∧ lat ≤ 90) ∨ ¬(-180 ≤ lon ∧ lon ≤ 180) then
        ParseFQ.errF "lat must be between -90..90 and lon between -180..180"
      else ParseFQ.okF lat lon []
    | _, _ => ParseFQ.errF "lat and lon must be numbers"

/-- Embeds `mapOpenMeteoDaily` (`part_003` lines 306-330): one record per
entry of `daily.time`, columns null-coalesced by index. -/
def mapOpenMeteoDaily (data : J) : List J :=
  let d := jget data "daily"
  let col := fun (k : String) => jsOrEmptyList (d.bind (fun x => jget x k))
  (jsOrEmptyList (d.bind (fun x => jget x "time"))).enum.map (fun p =>
    J.obj [("date", p.2),
           ("weather_code", (col "weathercode").getD p.1 J.null),
           ("temp_max_c", (col "temperature_2m_max").getD p.1 J.null),
           ("temp_min_c", (col "temperature_2m_min").getD p.1 J.null),
           ("precipitation_mm", (col "precipitation_sum").getD p.1 J.null),
           ("precipitation_probability_percent",
            (col "precipitation_probability_max").getD p.1 J.null),
           ("windspeed_10m_max_kmh", (col "windspeed_10m_max").getD p.1 J.null)])

/-- Result of the forecast fetch in `handleWeatherForecast`. -/
inductive FcUp where
  | okFc (data : J)
  | failFc (status : ℕ)

/-- Embeds `handleWeatherForecast` (`part_003` lines 111-136): parse the
query, clamp `days`, fetch, and map the daily response.  The `query` body
field echoes `q` when it is truthy, else the coordinates.  The second
component is the clamped `forecast_days` value sent upstream via
`buildOpenMeteoForecastUrl` (`none` when no upstream fetch is made); the
`days` field of the body is `daily.length`, as in the source. -/
def handleWeatherForecast (q latStr lonStr daysStr : Option String)
    (geo : GeoUp) (fc : FcUp) : Resp × Option ℚ :=
  match parseForecastQuery q latStr lonStr geo with
  | ParseFQ.errF m =>
    (⟨400, ctJson, RespBody.jsonB (J.obj [("error", J.str m)])⟩, none)
  | ParseFQ.okF lat lon place =>
    let days := clampDays daysStr
    match fc with
    | FcUp.failFc s =>
      (⟨502, ctJson,
        RespBody.jsonB (J.obj [("error", J.str "Upstream weather failed"),
                               ("status", J.num (s : ℚ))])⟩, some days)
    | FcUp.okFc data =>
      let daily := mapOpenMeteoDaily data
      (⟨200, [("content-type", "application/json"),
              ("cache-control", "public, max-age=900")],
        RespBody.jsonB (J.obj
          [("query", if truthy q then J.obj [("q", J.str (q.getD ""))]
                     else J.obj [("lat", J.num lat), ("lon", J.num lon)]),
           ("location", J.obj ([("lat", J.num lat), ("lon", J.num lon)] ++ place)),
           ("days", J.num (daily.length : ℚ)),
           ("daily", J.arr daily)])⟩, some days)

/-- Upstream result of the exchange-rates fetch: a date and a rates table,
or a failure status. -/
inductive RatesUp where
  | okR (date : String) (rates : List (String × ℚ))
  | failR (status : ℕ)

/-- Modelled from the spec: the exchange-rates route handler.  No such
route exists among the provided sources — the modular router that the test
suite exercises is not under `src/`, and the legacy router in
`src/src/index.ts` would fall through to its 404 (line 242) — so this
definition follows the spec's interface table: optional `base` defaulting
to USD, optional `symbols` (shaping only the upstream request, represented
here by the `up` parameter), a 200 JSON body of shape base/date/rates on
success, and 502 on upstream failure. -/
def handleRates (base _symbols : Option String) (up : RatesUp) : Resp :=
  let effBase := if truthy base then base.getD "USD" else "USD"
  match up with
  | RatesUp.failR s =>
    ⟨502, ctJson,
     RespBody.jsonB (J.obj [("error", J.str "Upstream rates failed"),
                            ("status", J.num (s : ℚ))])⟩
  | RatesUp.okR date rates =>
    ⟨200, ctJson,
     RespBody.jsonB (J.obj
       [("base", J.str effBase), ("date", J.str date),
        ("rates", J.obj (rates.map (fun p => (p.1, J.num p.2))))])⟩

/-- URL query parameters: an association list; `qget` is
`URLSearchParams.get` (first matching entry, case-sensitive). -/
abbrev QParams : Type := List (String × String)

/-- `URLSearchParams.get(n)`. -/
def qget (ps : QParams) (n : String) : Option String :=
  (List.find? (fun p => p.1 == n) ps).map (fun p => p.2)

/-- `URLSearchParams.set(n, v)`: replace the first entry named `n` in
place, drop later duplicates, else append. -/
def qset : QParams → String → String → QParams
  | [], n, v => [(n, v)]
  | p :: ps, n, v =>
    if p.1 == n then (n, v) :: ps.filter (fun q => q.1 != n)
    else p :: qset ps n v

/-- The upstream request issued by `handleCameraStream` when it reaches the
fetch: the configured bridge base, the camera id interpolated into the
path, the inbound method, and the filtered-plus-authorized headers. -/
structure FwdReq where
  base : String
  cameraId : String
  method : String
  headers : HMap

/-- The 501 bridge-not-configured response (`part_000` line 21). -/
def bridgeNotConfigured : Resp :=
  ⟨501, [("content-type", "application/json"),
         ("access-control-allow-origin", "*")],
   RespBody.jsonB (J.obj [("error", J.str "Bridge not configured"),
                          ("missing", J.arr [J.str "BRIDGE_BASE"])])⟩

/-- Embeds `handleCameraStream` (`part_000` lines 12-40): only GET/HEAD,
a truthy `cameraId` query parameter, a truthy `BRIDGE_BASE`, then the proxy
relay of the bridge's response `up`.  The second component is the upstream
request issued, `none` on the early returns. -/
def handleCameraStream (method : String) (reqH : HMap) (ps : QParams)
    (bridgeBase bridgeToken : Option String) (up : UpResp) :
    Resp × Option FwdReq :=
  if method != "GET" && method != "HEAD" then
    (⟨405, [("allow", "GET, HEAD")], RespBody.textB "Method Not Allowed"⟩, none)
  else if !truthy (qget ps "cameraId") then
    (⟨400, ctJson,
      RespBody.jsonB (J.obj [("error",
        J.str "Missing required query param: cameraId")])⟩, none)
  else if !truthy bridgeBase then (bridgeNotConfigured, none)
  else
    (cameraProxyResponse method up,
     some ⟨bridgeBase.getD "", (qget ps "cameraId").getD "", method,
           cameraForwardHeaders reqH bridgeToken⟩)

/-- Embeds `handleWebcamStream` (`part_001` lines 9-15): normalize `id` to
`cameraId` when `cameraId` is falsy and `id` truthy, then delegate to
`handleCameraStream`. -/
def handleWebcamStream (method : String) (reqH : HMap) (ps : QParams)
    (bridgeBase bridgeToken : Option String) (up : UpResp) :
    Resp × Option FwdReq :=
  let ps2 := if !truthy (qget ps "cameraId") && truthy (qget ps "id") then
               qset ps "cameraId" ((qget ps "id").getD "")
             else ps
  handleCameraStream method reqH ps2 bridgeBase bridgeToken up

/-- The PTZ action allow-list (`part_000` line 63), in `Array.from` order. -/
def validActions : List String := ["up", "down", "left", "right", "stop"]

/-- `validActions.has(action)`: true only for one of the five strings. -/
def isValidAction (a : Option J) : Bool :=
  match a with
  | some (J.str s) => validActions.contains s
  | _ => false

/-- The upstream response of the PTZ bridge call: status, an optional
content type, and the relayed body text. -/
structure PtzUp where
  status : ℕ
  contentType : Option String
  bodyText : String

/-- The JSON-plus-CORS header pair of the PTZ error responses. -/
def ctCors : HMap :=
  [("content-type", "application/json"), ("access-control-allow-origin", "*")]

/-- Embeds `handleCameraPtz` (`part_000` lines 42-82): OPTIONS preflight,
POST only, JSON body required (`body` is the parse result, `none` when
`request.json()` threw), truthy `cameraId` and a valid `action`, a
configured bridge, then the relay of the bridge response. -/
def handleCameraPtz (method : String) (body : Option J)
    (bridgeBase _bridgeToken : Option String) (up : PtzUp) : Resp :=
  if method == "OPTIONS" then
    (⟨200, [("access-control-allow-origin", "*"),
            ("access-control-allow-methods", "POST, OPTIONS"),
            ("access-control-allow-headers", "Content-Type, Authorization"),
            ("access-control-max-age", "600")], RespBody.emptyB⟩)
  else if method != "POST" then
    ⟨405, [("allow", "POST, OPTIONS")], RespBody.textB "Method Not Allowed"⟩
  else
    match body with
    | none => ⟨400, ctCors, RespBody.jsonB (J.obj [("error", J.str "Invalid JSON body")])⟩
    | some b =>
      if !jtruthy (jget b "cameraId") || !jtruthy (jget b "action")
          || !isValidAction (jget b "action") then
        ⟨400, ctCors,
         RespBody.jsonB (J.obj [("error", J.str "Missing/invalid cameraId or action"),
                                ("allowedActions", J.arr (validActions.map J.str))])⟩
      else if !truthy bridgeBase then bridgeNotConfigured
      else
        ⟨up.status,
         (match up.contentType with
          | some ct => if ct == "" then [("access-control-allow-origin", "*")]
                       else [("access-control-allow-origin", "*"),
                             ("content-type", ct)]
          | none => [("access-control-allow-origin", "*")]),
         RespBody.textB up.bodyText⟩

/-- Embeds `handleWebcamPtz` (`part_001` lines 17-19): delegate to
`handleCameraPtz`, ignoring the URL (`_ps`). -/
def handleWebcamPtz (method : String) (body : Option J)
    (bridgeBase bridgeToken : Option String) (up : PtzUp) (_ps : QParams) : Resp :=
  handleCameraPtz method body bridgeBase bridgeToken up

/-- The nested power defining `jsMaxMag` is the binary64 overflow
threshold `2 ^ 1024`. -/
theorem jsMaxMag_eq : jsMaxMag = 2 ^ 1024 := by norm_num [jsMaxMag]

/-- C9: for every value of the `days` query parameter the effective days
value lies in [1,16]; a finite numeric value below 1 clamps to 1, above 16
clamps to 16, an in-range value is kept, and an absent, empty or
non-numeric parameter defaults to 16. -/
theorem clampDays_range :
    (∀ d : Option String, 1 ≤ clampDays d ∧ clampDays d ≤ 16)
    ∧ clampDays none = 16
    ∧ clampDays (some "") = 16
    ∧ (∀ s : String, s ≠ "" → jsNumber s = none → clampDays (some s) = 16)
    ∧ (∀ (s : String) (n : ℚ), s ≠ "" → jsNumber s = some n → n < 1 →
        clampDays (some s) = 1)
    ∧ (∀ (s : String) (n : ℚ), s ≠ "" → jsNumber s = some n → 16 < n →
        clampDays (some s) = 16)
    ∧ (∀ (s : String) (n : ℚ), s ≠ "" → jsNumber s = some n → 1 ≤ n → n ≤ 16 →
        clampDays (some s) = n) := by
  refine ⟨?_, rfl, rfl, ?_, ?_, ?_, ?_⟩
  · intro d
    match d with
    | none => exact ⟨by norm_num [clampDays], by norm_num [clampDays]⟩
    | some s =>
      by_cases hs : s = ""
      · subst hs
        exact ⟨by norm_num [clampDays], by norm_num [clampDays]⟩
      · simp only [clampDays, beq_iff_eq, hs, if_false]
        match jsNumber s with
        | none => norm_num
        | some n =>
          refine ⟨le_max_left 1 (min 16 n), max_le (by norm_num) (min_le_left 16 n)⟩
  · intro s hs hn
    simp [clampDays, hs, hn]
  · intro s n hs hn hlt
    simp only [clampDays, beq_iff_eq, hs, if_false, hn]
    rw [min_eq_right (le_trans (le_of_lt hlt) (by norm_num)),
        max_eq_left (le_of_lt hlt)]
  · intro s n hs hn hgt
    simp only [clampDays, beq_iff_eq, hs, if_false, hn]
    rw [min_eq_left (le_of_lt hgt)]
    norm_num
  · intro s n hs hn h1 h16
    simp only [clampDays, beq_iff_eq, hs, if_false, hn]
    rw [min_eq_right h16, max_eq_right h1]

/-- Witness for C9: the concrete parameter `"20"` parses to the finite
value 20 and clamps down to 16; the exponent form `"1e1"` parses to 10 and
is kept; the hex form `"0x10"` parses to 16 and is kept. -/
theorem clampDays_range_witness :
    clampDays (some "20") = 16 ∧ clampDays (some "1e1") = 10
      ∧ clampDays (some "0x10") = 16 :=
  ⟨clampDays_range.2.2.2.2.2.1 "20" 20 (by decide) (by decide) (by norm_num),
   clampDays_range.2.2.2.2.2.2 "1e1" 10 (by decide) (by decide) (by norm_num)
     (by norm_num),
   clampDays_range.2.2.2.2.2.2 "0x10" 16 (by decide) (by decide) (by norm_num)
     (by norm_num)⟩

/-- The `next3h` loop computes, from position `i` with `cnt` entries already
pushed, the first `3 - cnt` index-timestamp pairs at or after `nowIso`. -/
theorem next3hGo_spec (nowIso : String) (precip pprob : List J) :
    ∀ (ts : List J) (i cnt : ℕ), cnt < 3 →
      next3hGo nowIso precip pprob ts i cnt =
      (((List.enumFrom i ts).filter
          (fun p => jsStrGe (asStr p.2) nowIso)).take (3 - cnt)).map
        (fun p => (⟨asStr p.2, toOptQ (precip.getD p.1 J.null),
                    toOptQ (pprob.getD p.1 J.null)⟩ : WEntry)) := by
  intro ts
  induction ts with
  | nil => intro i cnt _; simp [next3hGo, List.enumFrom]
  | cons t ts ih =>
    intro i cnt hcnt
    cases hle : jsStrGe (asStr t) nowIso with
    | true =>
      have hsucc : 3 - cnt = (3 - (cnt + 1)) + 1 := by omega
      simp only [next3hGo, hle, if_true, List.enumFrom, List.filter_cons,
        hsucc, List.take_succ_cons, List.map_cons]
      by_cases h3 : cnt + 1 ≥ 3
      · have h0 : 3 - (cnt + 1) = 0 := by omega
        simp [h3, h0]
      · have hlt : cnt + 1 < 3 := by omega
        simp only [if_neg h3, ih (i + 1) (cnt + 1) hlt]
    | false =>
      simp only [next3hGo, hle, Bool.false_eq_true, if_false, List.enumFrom,
        List.filter_cons]
      exact ih (i + 1) cnt hcnt

/-- C2 (amended): the `next3h` list consists of the first at most three
hourly entries whose ISO-8601 timestamp compares at-or-after (`>=`, string
comparison) the current instant, paired with their precipitation columns;
it has at most three entries and its timestamps form a sublist of the
upstream `time` array (upstream chronological order is preserved).  The
comparison is `>=`, not strictly-future: see the counterexample. -/
theorem next3h_at_or_after (nowIso : String) (times precip pprob : List J) :
    buildNext3h nowIso times precip pprob = next3hSpecGE nowIso times precip pprob
    ∧ (buildNext3h nowIso times precip pprob).length ≤ 3
    ∧ List.Sublist ((buildNext3h nowIso times precip pprob).map WEntry.time)
        (times.map asStr) := by
  have heq : buildNext3h nowIso times precip pprob
      = next3hSpecGE nowIso times precip pprob := by
    rw [buildNext3h, next3hGo_spec nowIso precip pprob times 0 0 (by norm_num),
        next3hSpecGE, List.enum]
  refine ⟨heq, ?_, ?_⟩
  · rw [heq, next3hSpecGE, List.length_map, List.length_take]
    exact min_le_left 3 _
  · rw [heq, next3hSpecGE, List.map_map]
    have hsub1 : List.Sublist
        (((List.enum times).filter (fun p => jsStrGe (asStr p.2) nowIso)).take 3)
        (List.enum times) :=
      (List.take_sublist _ _).trans (List.filter_sublist _)
    have hsub2 := (hsub1.map Prod.snd).map asStr
    rw [List.map_map, List.map_map] at hsub2
    have hcomp : (asStr ∘ Prod.snd : ℕ × J → String)
        = (WEntry.time ∘ fun p : ℕ × J =>
            (⟨asStr p.2, toOptQ (precip.getD p.1 J.null),
              toOptQ (pprob.getD p.1 J.null)⟩ : WEntry)) := rfl
    rw [hcomp] at hsub2
    have henum : (List.enum times).map (asStr ∘ Prod.snd) = times.map asStr := by
      rw [← List.map_map, List.enum_map_snd]
    rw [hcomp] at henum
    rw [← henum]
    exact hsub2

/-- Counterexample for C2: an hourly entry whose timestamp equals the
current instant is not strictly future, yet the loop keeps it, because the
code compares with `>=`. -/
theorem next3h_strictly_future_counterexample :
    buildNext3h "2026-01-01T00:00" [J.str "2026-01-01T00:00"] [] []
      = [⟨"2026-01-01T00:00", none, none⟩]
    ∧ jsStrLt "2026-01-01T00:00" "2026-01-01T00:00" = false :=
  ⟨rfl, by decide⟩

/-- The entry a copy-loop step contributes for name `n`: the lowercased
name with the source value, when that value is present and nonempty. -/
def keepEntry (src : HMap) (n : String) : Option (String × String) :=
  match hget src n with
  | some v => if v == "" then none else some (lowerStr n, v)
  | none => none

/-- One copy-loop step appends exactly the `keepEntry` contribution. -/
theorem copyIfTruthy_eq (src acc : HMap) (n : String) :
    copyIfTruthy src acc n = acc ++ (keepEntry src n).toList := by
  unfold copyIfTruthy keepEntry hset
  cases hget src n with
  | none => simp
  | some v => cases hv : v == "" <;> simp [hv]

/-- The copy loop, from any accumulator, appends the `keepEntry`
contributions of the names in order. -/
theorem foldl_copy_append (src : HMap) :
    ∀ (names : List String) (acc : HMap),
      List.foldl (fun a n => copyIfTruthy src a n) acc names
        = acc ++ names.filterMap (keepEntry src) := by
  intro names
  induction names with
  | nil => intro acc; simp
  | cons n ns ih =>
    intro acc
    rw [List.foldl_cons, copyIfTruthy_eq, ih, List.append_assoc,
        List.filterMap_cons]
    cases keepEntry src n <;> simp

/-- The copy loop is the `filterMap` of `keepEntry` over the allow-list. -/
theorem copyAllowed_eq (names : List String) (src : HMap) :
    copyAllowed names src = names.filterMap (keepEntry src) := by
  rw [copyAllowed, foldl_copy_append]
  simp

/-- Every entry of a copied header map is named by a lowercased allow-list
name. -/
theorem mem_copyAllowed (names : List String) (src : HMap) (n v : String)
    (h : (n, v) ∈ copyAllowed names src) : n ∈ names.map lowerStr := by
  rw [copyAllowed_eq] at h
  rcases List.mem_filterMap.mp h with ⟨m, hm, hk⟩
  unfold keepEntry at hk
  cases hsrc : hget src m with
  | none => rw [hsrc] at hk; simp at hk
  | some w =>
    rw [hsrc] at hk
    by_cases hw : w = ""
    · simp [hw] at hk
    · simp [hw] at hk
      exact List.mem_map.mpr ⟨m, hm, hk.1⟩

/-- The copied header map depends on the source only through the values of
the allow-listed names. -/
theorem copyAllowed_congr :
    ∀ (names : List String) (src1 src2 : HMap),
      (∀ n ∈ names, hget src1 n = hget src2 n) →
      copyAllowed names src1 = copyAllowed names src2 := by
  intro names src1 src2 h
  rw [copyAllowed_eq, copyAllowed_eq]
  refine List.filterMap_congr (fun n hn => ?_)
  unfold keepEntry
  rw [h n hn]

/-- `Headers.get` over an appended header map. -/
theorem hget_append (h1 h2 : HMap) (m : String) :
    hget (h1 ++ h2) m = match hget h1 m with
                        | some v => some v
                        | none => hget h2 m := by
  unfold hget
  rw [List.find?_append]
  cases List.find? (fun p => p.1 == lowerStr m) h1 <;> simp [Option.or]

/-- Two names with the same lowercase form read the same header. -/
theorem hget_eq_of_lower (src : HMap) (n m : String)
    (h : lowerStr n = lowerStr m) : hget src n = hget src m := by
  unfold hget
  rw [h]

/-- `Headers.get` over a cons cell. -/
theorem hget_cons (k w : String) (rest : HMap) (m : String) :
    hget ((k, w) :: rest) m
      = if k == lowerStr m then some w else hget rest m := by
  unfold hget
  rw [List.find?_cons]
  cases hkm : (k == lowerStr m) <;> simp [hkm]

/-- `Headers.get` over a copied header map: the nonempty source value when
the (lowercase) name is allow-listed, nothing otherwise. -/
theorem hget_copyAllowed (src : HMap) (m : String) (hm : lowerStr m = m) :
    ∀ names : List String,
      hget (copyAllowed names src) m
        = if m ∈ names.map lowerStr
          then (hget src m).bind (fun v => if v = "" then none else some v)
          else none := by
  intro names
  induction names with
  | nil => simp [copyAllowed_eq, hget]
  | cons n ns ih =>
    rw [copyAllowed_eq, List.filterMap_cons]
    cases hsrc : hget src n with
    | none =>
      have hk : keepEntry src n = none := by simp [keepEntry, hsrc]
      rw [hk, ← copyAllowed_eq, ih]
      by_cases hnm : lowerStr n = m
      · have hsm : hget src m = none := by
          rw [← hget_eq_of_lower src n m (hnm.trans hm.symm)]
          exact hsrc
        simp [hsm]
      · rw [List.map_cons]
        simp [List.mem_cons, Ne.symm hnm]
    | some v =>
      by_cases hv : v = ""
      · subst hv
        have hk : keepEntry src n = none := by simp [keepEntry, hsrc]
        rw [hk, ← copyAllowed_eq, ih]
        by_cases hnm : lowerStr n = m
        · have hsm : hget src m = some "" := by
            rw [← hget_eq_of_lower src n m (hnm.trans hm.symm)]
            exact hsrc
          simp [hsm]
        · rw [List.map_cons]
          simp [List.mem_cons, Ne.symm hnm]
      · have hk : keepEntry src n = some (lowerStr n, v) := by
          simp [keepEntry, hsrc, hv]
        rw [hk, hget_cons]
        by_cases hnm : lowerStr n = m
        · have hsm : hget src m = some v := by
            rw [← hget_eq_of_lower src n m (hnm.trans hm.symm)]
            exact hsrc
          have hcond : (lowerStr n == lowerStr m) = true := by
            rw [hm, hnm]
            exact beq_self_eq_true m
          rw [hcond, if_pos rfl]
          rw [List.map_cons]
          simp [List.mem_cons, hnm, hsm, hv]
        · have hcond : (lowerStr n == lowerStr m) = false := by
            rw [hm]
            exact beq_eq_false_iff_ne.mpr hnm
          rw [hcond]
          simp only [Bool.false_eq_true, if_false]
          rw [← copyAllowed_eq, ih, List.map_cons]
          simp [List.mem_cons, Ne.symm hnm]

/-- Every header of a built proxy response is a lowercased keep-list name,
the added cross-origin header, or the synthesized range-support header. -/
theorem mem_buildProxyHeaders (keep : List String) (up : HMap) (n v : String)
    (h : (n, v) ∈ buildProxyHeaders keep up) :
    n ∈ keep.map lowerStr ∨ n = "access-control-allow-origin"
      ∨ n = "accept-ranges" := by
  have hacc : lowerStr "Access-Control-Allow-Origin"
      = "access-control-allow-origin" := by decide
  have har : lowerStr "Accept-Ranges" = "accept-ranges" := by decide
  simp only [buildProxyHeaders, hset, hacc, har] at h
  split at h
  · rcases List.mem_append.mp h with h1 | h2
    · exact Or.inl (mem_copyAllowed keep up n v h1)
    · simp at h2
      exact Or.inr (Or.inl h2.1)
  · rcases List.mem_append.mp h with h1 | h2
    · rcases List.mem_append.mp h1 with h3 | h4
      · exact Or.inl (mem_copyAllowed keep up n v h3)
      · simp at h4
        exact Or.inr (Or.inl h4.1)
    · simp at h2
      exact Or.inr (Or.inr h2.1)

/-- C6: the media and camera proxies forward only the four allow-listed
request headers (plus, for the camera bridge, the injected Authorization
token), relay only keep-listed response headers plus the proxy's own added
cross-origin and range-support headers, and the forwarded headers depend on
the inbound request only through the allow-listed names — two requests
agreeing on those four headers produce identical forwarded header sets. -/
theorem proxy_header_allowlists :
    (∀ (reqH : HMap) (n v : String),
        (n, v) ∈ forwardHeaders reqH → n ∈ reqAllowLower)
    ∧ (∀ (reqH : HMap) (tok : Option String) (n v : String),
        (n, v) ∈ cameraForwardHeaders reqH tok →
        n ∈ reqAllowLower ∨ n = "authorization")
    ∧ (∀ reqH1 reqH2 : HMap,
        (∀ nm ∈ reqAllowList, hget reqH1 nm = hget reqH2 nm) →
        forwardHeaders reqH1 = forwardHeaders reqH2)
    ∧ (∀ (reqH1 reqH2 : HMap) (tok : Option String),
        (∀ nm ∈ reqAllowList, hget reqH1 nm = hget reqH2 nm) →
        cameraForwardHeaders reqH1 tok = cameraForwardHeaders reqH2 tok)
    ∧ (∀ (up : HMap) (n v : String),
        (n, v) ∈ buildProxyHeaders respKeepVideo up →
        n ∈ respKeepVideo ∨ n = "access-control-allow-origin")
    ∧ (∀ (up : HMap) (n v : String),
        (n, v) ∈ buildProxyHeaders respKeepCamera up →
        n ∈ respKeepCamera ∨ n = "access-control-allow-origin") := by
  have hlowreq : reqAllowList.map lowerStr = reqAllowLower := by decide
  have hlowvid : respKeepVideo.map lowerStr = respKeepVideo := by decide
  have hlowcam : respKeepCamera.map lowerStr = respKeepCamera := by decide
  have hauth : lowerStr "Authorization" = "authorization" := by decide
  refine ⟨?_, ?_, ?_, ?_, ?_, ?_⟩
  · intro reqH n v h
    have := mem_copyAllowed reqAllowList reqH n v h
    rwa [hlowreq] at this
  · intro reqH tok n v h
    cases tok with
    | none =>
      simp only [cameraForwardHeaders] at h
      have := mem_copyAllowed reqAllowList reqH n v h
      rw [hlowreq] at this
      exact Or.inl this
    | some t =>
      by_cases ht : t = ""
      · simp only [cameraForwardHeaders, ht] at h
        simp at h
        have := mem_copyAllowed reqAllowList reqH n v h
        rw [hlowreq] at this
        exact Or.inl this
      · simp only [cameraForwardHeaders, hset, hauth] at h
        rw [if_neg (by simp [ht])] at h
        rcases List.mem_append.mp h with h1 | h2
        · have := mem_copyAllowed reqAllowList reqH n v h1
          rw [hlowreq] at this
          exact Or.inl this
        · simp at h2
          exact Or.inr h2.1
  · intro reqH1 reqH2 hc
    exact copyAllowed_congr reqAllowList reqH1 reqH2 hc
  · intro reqH1 reqH2 tok hc
    cases tok with
    | none => exact copyAllowed_congr reqAllowList reqH1 reqH2 hc
    | some t =>
      simp only [cameraForwardHeaders, forwardHeaders]
      rw [copyAllowed_congr reqAllowList reqH1 reqH2 hc]
  · intro up n v h
    rcases mem_buildProxyHeaders respKeepVideo up n v h with h1 | h2 | h3
    · rw [hlowvid] at h1
      exact Or.inl h1
    · exact Or.inr h2
    · exact Or.inl (by rw [h3]; decide)
  · intro up n v h
    rcases mem_buildProxyHeaders respKeepCamera up n v h with h1 | h2 | h3
    · rw [hlowcam] at h1
      exact Or.inl h1
    · exact Or.inr h2
    · exact Or.inl (by rw [h3]; decide)

/-- Witness for C6: two requests differing only in a header outside the
allow-list (a cookie versus a secret header) forward identically, for both
proxies. -/
theorem proxy_header_allowlists_witness :
    forwardHeaders [("range", "bytes=0-99"), ("x-secret", "1")]
      = forwardHeaders [("range", "bytes=0-99"), ("cookie", "a=b")]
    ∧ cameraForwardHeaders [("range", "bytes=0-99"), ("x-secret", "1")] (some "tok")
      = cameraForwardHeaders [("range", "bytes=0-99"), ("cookie", "a=b")] (some "tok") :=
  ⟨proxy_header_allowlists.2.2.1 _ _ (by decide),
   proxy_header_allowlists.2.2.2.1 _ _ (some "tok") (by decide)⟩

/-- The built proxy response headers always expose the permissive
cross-origin header, provided the keep-list does not itself contain it. -/
theorem hget_buildProxy_acao (keep : List String) (up : HMap)
    (hmem : "access-control-allow-origin" ∉ keep.map lowerStr) :
    hget (buildProxyHeaders keep up) "access-control-allow-origin"
      = some "*" := by
  have hacc : lowerStr "Access-Control-Allow-Origin"
      = "access-control-allow-origin" := by decide
  have har : lowerStr "Accept-Ranges" = "accept-ranges" := by decide
  have h0 : hget (copyAllowed keep up) "access-control-allow-origin" = none := by
    rw [hget_copyAllowed up "access-control-allow-origin" (by decide) keep,
        if_neg hmem]
  have h1 : hget ([("access-control-allow-origin", "*")] : HMap)
      "access-control-allow-origin" = some "*" := by decide
  simp only [buildProxyHeaders, hset, hacc, har]
  split
  · rw [hget_append, h0, h1]
  · rw [hget_append, hget_append, h0, h1]

/-- The built proxy response headers carry `accept-ranges`: the upstream
value when upstream sent one, the synthesized `bytes` otherwise (assuming
upstream header values are nonempty). -/
theorem hget_buildProxy_acceptRanges (keep : List String) (up : HMap)
    (hmem : "accept-ranges" ∈ keep.map lowerStr)
    (hne : ∀ p ∈ up, p.2 ≠ "") :
    hget (buildProxyHeaders keep up) "accept-ranges"
      = some ((hget up "accept-ranges").getD "bytes") := by
  have hacc : lowerStr "Access-Control-Allow-Origin"
      = "access-control-allow-origin" := by decide
  have har : lowerStr "Accept-Ranges" = "accept-ranges" := by decide
  have hupv : ∀ v, hget up "accept-ranges" = some v → v ≠ "" := by
    intro v hv
    unfold hget at hv
    cases hfind : List.find? (fun p => p.1 == lowerStr "accept-ranges") up with
    | none => rw [hfind] at hv; simp at hv
    | some p =>
      rw [hfind] at hv
      simp at hv
      have hmem2 := List.mem_of_find?_eq_some hfind
      rw [← hv]
      exact hne p hmem2
  have h0 : hget (copyAllowed keep up) "accept-ranges"
      = hget up "accept-ranges" := by
    rw [hget_copyAllowed up "accept-ranges" (by decide) keep, if_pos hmem]
    cases hu : hget up "accept-ranges" with
    | none => rfl
    | some v => simp [hupv v hu]
  have h2 : hget (copyAllowed keep up ++ [("access-control-allow-origin", "*")])
      "accept-ranges" = hget up "accept-ranges" := by
    rw [hget_append, h0]
    cases hu : hget up "accept-ranges" with
    | none => decide
    | some v => rfl
  simp only [buildProxyHeaders, hset, hacc, har]
  cases hu : hget up "accept-ranges" with
  | some v =>
    rw [if_pos (by rw [h2, hu]; rfl), h2, hu]
    rfl
  | none =>
    rw [if_neg (by rw [h2, hu]; simp)]
    rw [hget_append, h2, hu]
    decide

/-- C7: for every upstream response relayed by the media and camera stream
proxies, the proxy copies the upstream status verbatim, always adds
`Access-Control-Allow-Origin: *`, exposes `accept-ranges` as the upstream
value or the synthesized `bytes` exactly when upstream lacks one, sends an
empty body for HEAD and the upstream stream otherwise, and relays only
keep-listed headers plus the added cross-origin header.  Upstream header
values are assumed nonempty (an empty HTTP header value never occurs in the
relays modelled). -/
theorem proxy_response_construction :
    ∀ (method : String) (up : UpResp),
      (∀ p ∈ up.headers, p.2 ≠ "") →
      (videoProxyResponse method up).status = up.status
      ∧ (cameraProxyResponse method up).status = up.status
      ∧ hget (videoProxyResponse method up).headers
          "access-control-allow-origin" = some "*"
      ∧ hget (cameraProxyResponse method up).headers
          "access-control-allow-origin" = some "*"
      ∧ hget (videoProxyResponse method up).headers "accept-ranges"
          = some ((hget up.headers "accept-ranges").getD "bytes")
      ∧ hget (cameraProxyResponse method up).headers "accept-ranges"
          = some ((hget up.headers "accept-ranges").getD "bytes")
      ∧ (videoProxyResponse method up).body
          = RespBody.streamB (if method == "HEAD" then none else up.body)
      ∧ (cameraProxyResponse method up).body
          = RespBody.streamB (if method == "HEAD" then none else up.body)
      ∧ (∀ n v, (n, v) ∈ (videoProxyResponse method up).headers →
          n ∈ respKeepVideo ∨ n = "access-control-allow-origin")
      ∧ (∀ n v, (n, v) ∈ (cameraProxyResponse method up).headers →
          n ∈ respKeepCamera ∨ n = "access-control-allow-origin") := by
  intro method up hne
  refine ⟨rfl, rfl, ?_, ?_, ?_, ?_, rfl, rfl, ?_, ?_⟩
  · exact hget_buildProxy_acao respKeepVideo up.headers (by decide)
  · exact hget_buildProxy_acao respKeepCamera up.headers (by decide)
  · exact hget_buildProxy_acceptRanges respKeepVideo up.headers (by decide) hne
  · exact hget_buildProxy_acceptRanges respKeepCamera up.headers (by decide) hne
  · intro n v h
    have hlowvid : respKeepVideo.map lowerStr = respKeepVideo := by decide
    rcases mem_buildProxyHeaders respKeepVideo up.headers n v h with h1 | h2 | h3
    · rw [hlowvid] at h1
      exact Or.inl h1
    · exact Or.inr h2
    · exact Or.inl (by rw [h3]; decide)
  · intro n v h
    have hlowcam : respKeepCamera.map lowerStr = respKeepCamera := by decide
    rcases mem_buildProxyHeaders respKeepCamera up.headers n v h with h1 | h2 | h3
    · rw [hlowcam] at h1
      exact Or.inl h1
    · exact Or.inr h2
    · exact Or.inl (by rw [h3]; decide)

/-- Witness for C7: a concrete 206 upstream response without an
`accept-ranges` header is relayed with its status, the cross-origin header
and a synthesized `Accept-Ranges: bytes`; its HEAD variant has no body. -/
theorem proxy_response_construction_witness :
    (videoProxyResponse "GET"
        ⟨206, [("content-range", "bytes 0-99/1000")], some "stream"⟩).status = 206
    ∧ hget (videoProxyResponse "GET"
        ⟨206, [("content-range", "bytes 0-99/1000")], some "stream"⟩).headers
        "accept-ranges" = some "bytes"
    ∧ (videoProxyResponse "HEAD"
        ⟨206, [("content-range", "bytes 0-99/1000")], some "stream"⟩).body
        = RespBody.streamB none :=
  ⟨(proxy_response_construction "GET"
      ⟨206, [("content-range", "bytes 0-99/1000")], some "stream"⟩ (by decide)).1,
   (proxy_response_construction "GET"
      ⟨206, [("content-range", "bytes 0-99/1000")], some "stream"⟩
      (by decide)).2.2.2.2.1,
   (proxy_response_construction "HEAD"
      ⟨206, [("content-range", "bytes 0-99/1000")], some "stream"⟩
      (by decide)).2.2.2.2.2.2.1⟩

/-- `URLSearchParams.get` over a cons cell. -/
theorem qget_cons (a b : String) (rest : QParams) (n : String) :
    qget ((a, b) :: rest) n = if a == n then some b else qget rest n := by
  unfold qget
  rw [List.find?_cons]
  cases han : (a == n) <;> simp [han]

/-- After `set(n, v)`, `get(n)` returns `v`. -/
theorem qget_qset_self : ∀ (ps : QParams) (n v : String),
    qget (qset ps n v) n = some v := by
  intro ps n v
  induction ps with
  | nil => simp [qset, qget_cons]
  | cons p ps ih =>
    obtain ⟨a, b⟩ := p
    simp only [qset]
    cases hp : (a == n) with
    | true =>
      simp only [if_true]
      rw [qget_cons]
      simp
    | false =>
      simp only [Bool.false_eq_true, if_false]
      rw [qget_cons, hp]
      simp only [Bool.false_eq_true, if_false]
      exact ih

/-- C10: a webcam stream request lacking `cameraId` but carrying `id`
behaves exactly as the camera stream endpoint invoked with `cameraId` set
to that `id` value, and the webcam PTZ handler is extensionally the camera
PTZ handler. -/
theorem webcam_alias_equiv :
    (∀ (method : String) (reqH : HMap) (ps : QParams)
        (bridgeBase bridgeToken : Option String) (up : UpResp) (v : String),
      qget ps "cameraId" = none → qget ps "id" = some v →
      handleWebcamStream method reqH ps bridgeBase bridgeToken up
        = handleCameraStream method reqH (qset ps "cameraId" v)
            bridgeBase bridgeToken up)
    ∧ (∀ (method : String) (body : Option J) (bridgeBase bridgeToken : Option String)
        (up : PtzUp) (ps : QParams),
      handleWebcamPtz method body bridgeBase bridgeToken up ps
        = handleCameraPtz method body bridgeBase bridgeToken up) := by
  constructor
  · intro method reqH ps bridgeBase bridgeToken up v hc hid
    by_cases hv : v = ""
    · subst hv
      have hps2 : (if !truthy (qget ps "cameraId") && truthy (qget ps "id")
          then qset ps "cameraId" ((qget ps "id").getD "") else ps) = ps := by
        rw [hc, hid]
        simp [truthy]
      rw [handleWebcamStream, hps2]
      have h1 : truthy (qget ps "cameraId") = false := by rw [hc]; rfl
      have h2 : truthy (qget (qset ps "cameraId" "") "cameraId") = false := by
        rw [qget_qset_self]
        rfl
      simp [handleCameraStream, truthy, hc, qget_qset_self]
    · have hps2 : (if !truthy (qget ps "cameraId") && truthy (qget ps "id")
          then qset ps "cameraId" ((qget ps "id").getD "") else ps)
          = qset ps "cameraId" v := by
        rw [hc, hid]
        simp [truthy, hv]
      rw [handleWebcamStream, hps2]
  · intro method body bridgeBase bridgeToken up ps
    rfl

/-- Witness for C10: a concrete request with `id=cam1` and no `cameraId`
is served identically to the camera endpoint with `cameraId=cam1`. -/
theorem webcam_alias_equiv_witness :
    handleWebcamStream "GET" [] [("id", "cam1")] (some "http://bridge")
        (some "tok") ⟨200, [], some "s"⟩
      = handleCameraStream "GET" [] (qset [("id", "cam1")] "cameraId" "cam1")
          (some "http://bridge") (some "tok") ⟨200, [], some "s"⟩ :=
  webcam_alias_equiv.1 "GET" [] [("id", "cam1")] (some "http://bridge")
    (some "tok") ⟨200, [], some "s"⟩ "cam1" (by decide) (by decide)

/-- The provider loop refines the claim-side chain characterization: its
response is determined by the first decisive provider result, and it
fetches exactly the providers up to and including that result. -/
theorem runLoop_eq {α : Type} (mk : String → α → Resp) (af : Resp) :
    ∀ l : List (Prov α × UResult),
      (∀ (nm : String) (pl : α), chainSpec l = COut.success nm pl →
          (runLoop mk af l).1 = mk nm pl)
      ∧ (∀ s : ℕ, chainSpec l = COut.rejected s →
          (runLoop mk af l).1 = upstreamErrResp s)
      ∧ (chainSpec l = COut.allFailed → (runLoop mk af l).1 = af)
      ∧ fetchNames (runLoop mk af l).2 = attemptedN l := by
  intro l
  induction l with
  | nil =>
    refine ⟨?_, ?_, ?_, ?_⟩
    · intro nm pl h; simp [chainSpec] at h
    · intro s h; simp [chainSpec] at h
    · intro _; rfl
    · rfl
  | cons hd tl ih =>
    obtain ⟨p, r⟩ := hd
    obtain ⟨ih1, ih2, ih3, ih4⟩ := ih
    cases r with
    | errU =>
      have hcs : chainSpec ((p, UResult.errU) :: tl) = chainSpec tl := by
        simp [chainSpec, decisive]
      have hrl : runLoop mk af ((p, UResult.errU) :: tl)
          = ((runLoop mk af tl).1, Ev.fetchP p.name :: (runLoop mk af tl).2) := by
        simp [runLoop]
      refine ⟨?_, ?_, ?_, ?_⟩
      · intro nm pl h; rw [hcs] at h; rw [hrl]; exact ih1 nm pl h
      · intro s h; rw [hcs] at h; rw [hrl]; exact ih2 s h
      · intro h; rw [hcs] at h; rw [hrl]; exact ih3 h
      · rw [hrl]
        simp only [fetchNames, List.filterMap_cons]
        rw [← fetchNames]
        rw [ih4]
        simp [attemptedN, decisive]
    | resp s d =>
      by_cases hok : isOk s = true
      · refine ⟨?_, ?_, ?_, ?_⟩
        · intro nm pl h
          simp [chainSpec, decisive, hok] at h
          rw [← h.1, ← h.2]
          simp [runLoop, hok]
        · intro s2 h
          simp [chainSpec, decisive, hok] at h
        · intro h
          simp [chainSpec, decisive, hok] at h
        · simp [runLoop, hok, fetchNames, attemptedN, decisive]
      · by_cases hr : retryable s = true
        · have hcs : chainSpec ((p, UResult.resp s d) :: tl) = chainSpec tl := by
            simp [chainSpec, decisive, hok, hr]
          have hrl : runLoop mk af ((p, UResult.resp s d) :: tl)
              = ((runLoop mk af tl).1,
                 Ev.fetchP p.name :: (runLoop mk af tl).2) := by
            simp [runLoop, hok, hr]
          refine ⟨?_, ?_, ?_, ?_⟩
          · intro nm pl h; rw [hcs] at h; rw [hrl]; exact ih1 nm pl h
          · intro s2 h; rw [hcs] at h; rw [hrl]; exact ih2 s2 h
          · intro h; rw [hcs] at h; rw [hrl]; exact ih3 h
          · rw [hrl]
            simp only [fetchNames, List.filterMap_cons]
            rw [← fetchNames]
            rw [ih4]
            simp [attemptedN, decisive, hok, hr]
        · refine ⟨?_, ?_, ?_, ?_⟩
          · intro nm pl h
            simp [chainSpec, decisive, hok, hr] at h
          · intro s2 h
            simp [chainSpec, decisive, hok, hr] at h
            rw [← h]
            simp [runLoop, hok, hr]
          · intro h
            simp [chainSpec, decisive, hok, hr] at h
          · simp [runLoop, hok, hr, fetchNames, attemptedN, decisive]

/-- C1 (amended): for every ordered provider list and upstream results, the
`/data` and `/weather` provider loops return the first 2xx outcome as a 200
response — for `/data` a body tagged with the provider name and transformed
payload, for `/weather` the transformed payload alone — skip a provider on
a thrown fetch or a 403/429/>=500 status, terminate at once with the 502
upstream-error response on any other non-2xx status without fetching any
remaining provider, and return the 504 all-failed response when every
provider was skipped or errored.  The fetch traces equal the claim-side
attempted prefix in all cases. -/
theorem fallback_chain_first_decisive :
    ∀ (ld : List (Prov J × UResult)) (lw : List (Prov WeatherPayload × UResult)),
      (∀ (nm : String) (pl : J), chainSpec ld = COut.success nm pl →
        (runDataLoop ld).1
          = ⟨200, [("content-type", "application/json"),
                   ("cache-control", "public, max-age=30")],
             RespBody.jsonB (J.obj [("provider", J.str nm), ("payload", pl)])⟩)
      ∧ (∀ s : ℕ, chainSpec ld = COut.rejected s →
          (runDataLoop ld).1 = upstreamErrResp s)
      ∧ (chainSpec ld = COut.allFailed → (runDataLoop ld).1 = dataAllFailedResp)
      ∧ fetchNames (runDataLoop ld).2 = attemptedN ld
      ∧ (∀ (nm : String) (pl : WeatherPayload), chainSpec lw = COut.success nm pl →
        (runWeatherLoop lw).1
          = ⟨200, [("content-type", "application/json"),
                   ("cache-control", "public, max-age=120")],
             RespBody.jsonB pl.toJ⟩)
      ∧ (∀ s : ℕ, chainSpec lw = COut.rejected s →
          (runWeatherLoop lw).1 = upstreamErrResp s)
      ∧ (chainSpec lw = COut.allFailed → (runWeatherLoop lw).1 = weatherAllFailedResp)
      ∧ fetchNames (runWeatherLoop lw).2 = attemptedN lw := by
  intro ld lw
  obtain ⟨hd1, hd2, hd3, hd4⟩ := runLoop_eq dataSuccessResp dataAllFailedResp ld
  obtain ⟨hw1, hw2, hw3, hw4⟩ :=
    runLoop_eq (fun _ payload => weatherSuccessResp payload) weatherAllFailedResp lw
  exact ⟨hd1, hd2, hd3, hd4, hw1, hw2, hw3, hw4⟩

/-- Counterexample for C1: the `/weather` loop's 200 success body is the
transformed payload alone — at a concrete chain whose first provider
(open-meteo) answers 200, the returned body is a JSON object with no
`provider` field, while the claim requires the body to carry the provider's
name. -/
theorem fallback_chain_counterexample :
    (runWeatherLoop ((weatherProviders "2026-01-01T00:00:00.000Z" 50 14).zip
        [UResult.resp 200 (J.obj []), UResult.errU])).1.status = 200
    ∧ (bodyJson (runWeatherLoop ((weatherProviders "2026-01-01T00:00:00.000Z" 50 14).zip
        [UResult.resp 200 (J.obj []), UResult.errU])).1).isSome = true
    ∧ ((bodyJson (runWeatherLoop ((weatherProviders "2026-01-01T00:00:00.000Z" 50 14).zip
        [UResult.resp 200 (J.obj []), UResult.errU])).1).bind
        (fun j => jget j "provider")) = none :=
  ⟨rfl, rfl, rfl⟩

/-- Witness for C1: in a chain where provider 1 answers 429 and provider 2
answers 200, the loop returns provider 2's payload tagged with its name,
with both providers fetched — the spec's own worked example. -/
theorem fallback_chain_witness :
    (runDataLoop (dataProviders.zip
        [UResult.resp 429 J.null,
         UResult.resp 200 (J.obj [("value", J.str "Chuck")])])).1
      = ⟨200, [("content-type", "application/json"),
               ("cache-control", "public, max-age=30")],
         RespBody.jsonB (J.obj [("provider", J.str "chucknorris"),
                                ("payload", J.obj [("joke", J.str "Chuck")])])⟩
    ∧ fetchNames (runDataLoop (dataProviders.zip
        [UResult.resp 429 J.null,
         UResult.resp 200 (J.obj [("value", J.str "Chuck")])])).2
      = ["coingecko", "chucknorris"] :=
  ⟨(fallback_chain_first_decisive (dataProviders.zip
      [UResult.resp 429 J.null,
       UResult.resp 200 (J.obj [("value", J.str "Chuck")])]) []).1
      "chucknorris" (J.obj [("joke", J.str "Chuck")]) rfl,
   (fallback_chain_first_decisive (dataProviders.zip
      [UResult.resp 429 J.null,
       UResult.resp 200 (J.obj [("value", J.str "Chuck")])]) []).2.2.2.1⟩

/-- C3: on both JSON endpoints the edge-cache lookup happens before any
upstream fetch — the `/data` trace always begins with the lookup, and the
`/weather` trace is either empty (validation failed, no fetch either) or
begins with the lookup — and a cache hit is returned unchanged with no
provider fetched (the trace is exactly the lookup). -/
theorem cache_lookup_first :
    (∀ (cached : Option Resp) (u1 u2 : UResult),
        (handleData cached u1 u2).2.head? = some Ev.lookupC)
    ∧ (∀ (r : Resp) (u1 u2 : UResult),
        handleData (some r) u1 u2 = (r, [Ev.lookupC]))
    ∧ (∀ (latStr lonStr : Option String) (cached : Option Resp) (nowIso : String)
        (u1 u2 : UResult),
        (handleWeatherNow latStr lonStr cached nowIso u1 u2).2 = []
        ∨ (handleWeatherNow latStr lonStr cached nowIso u1 u2).2.head?
            = some Ev.lookupC)
    ∧ (∀ (latStr lonStr : Option String) (r : Resp) (nowIso : String)
        (u1 u2 : UResult),
        Ev.lookupC ∈ (handleWeatherNow latStr lonStr (some r) nowIso u1 u2).2 →
        handleWeatherNow latStr lonStr (some r) nowIso u1 u2
          = (r, [Ev.lookupC])) := by
  refine ⟨?_, ?_, ?_, ?_⟩
  · intro cached u1 u2
    cases cached <;> rfl
  · intro r u1 u2
    rfl
  · intro latStr lonStr cached nowIso u1 u2
    unfold handleWeatherNow
    split
    · left; rfl
    · split
      · split
        · left; rfl
        · split
          · right; rfl
          · right; rfl
      · left; rfl
  · intro latStr lonStr r nowIso u1 u2 hmem
    cases h1 : (!truthy latStr || !truthy lonStr) with
    | true =>
      rw [handleWeatherNow, h1] at hmem
      simp at hmem
    | false =>
      rw [handleWeatherNow, h1] at hmem
      rw [handleWeatherNow, h1]
      simp only [Bool.false_eq_true, if_false] at hmem ⊢
      cases h2 : jsNumber (latStr.getD "") with
      | none =>
        simp only [h2] at hmem
        simp at hmem
      | some lat =>
        cases h3 : jsNumber (lonStr.getD "") with
        | none =>
          simp only [h2, h3] at hmem
          simp at hmem
        | some lon =>
          simp only [h2, h3] at hmem ⊢
          by_cases h4 : ¬(-90 ≤ lat ∧ lat ≤ 90) ∨ ¬(-180 ≤ lon ∧ lon ≤ 180)
          · rw [if_pos h4] at hmem
            simp at hmem
          · rw [if_neg h4]

/-- Witness for C3: concrete cache hits are returned unchanged on both
endpoints, with no provider fetch. -/
theorem cache_lookup_first_witness :
    handleData (some (badReqW "cached")) UResult.errU UResult.errU
      = (badReqW "cached", [Ev.lookupC])
    ∧ handleWeatherNow (some "50") (some "14") (some (badReqW "cached"))
        "2026-01-01T00:00:00.000Z" UResult.errU UResult.errU
      = (badReqW "cached", [Ev.lookupC]) :=
  ⟨cache_lookup_first.2.1 (badReqW "cached") UResult.errU UResult.errU,
   cache_lookup_first.2.2.2 (some "50") (some "14") (badReqW "cached")
     "2026-01-01T00:00:00.000Z" UResult.errU UResult.errU
     (List.mem_singleton.mpr rfl)⟩

/-- Statuses a provider loop can produce: the success status (when `mk`
always builds 200 responses), the 502 rejection, or the all-failed status. -/
theorem runLoop_status {α : Type} (mk : String → α → Resp) (af : Resp)
    (hmk : ∀ (nm : String) (pl : α), (mk nm pl).status = 200) :
    ∀ l : List (Prov α × UResult),
      (runLoop mk af l).1.status = 200 ∨ (runLoop mk af l).1.status = 502
        ∨ (runLoop mk af l).1 = af := by
  intro l
  induction l with
  | nil => right; right; rfl
  | cons hd tl ih =>
    obtain ⟨p, r⟩ := hd
    cases r with
    | errU => simpa [runLoop] using ih
    | resp s d =>
      by_cases hok : isOk s = true
      · left
        simp [runLoop, hok, hmk]
      · by_cases hr : retryable s = true
        · simpa [runLoop, hok, hr] using ih
        · right; left
          simp [runLoop, hok, hr, upstreamErrResp]

/-- Statuses of the modular weather loop: success (200), rejection (502),
or all-failed (504). -/
theorem runWeatherLoop_status (lw : List (Prov WeatherPayload × UResult)) :
    (runWeatherLoop lw).1.status = 200 ∨ (runWeatherLoop lw).1.status = 502
      ∨ (runWeatherLoop lw).1.status = 504 := by
  rcases runLoop_status (fun _ payload => weatherSuccessResp payload)
      weatherAllFailedResp (fun _ _ => rfl) lw with h | h | h
  · left; exact h
  · right; left; exact h
  · right; right
    rw [runWeatherLoop, h]
    rfl

/-- C5 (amended): under the invariant that cached entries are previously
stored 200 responses, the modular `/weather` handler answers only with
200, 400, 502 or 504; the legacy `/weather` handler of `src/src/index.ts`
answers with 200, 400, 502, 504 — or 500, from its catch branch, when the
upstream fetch fails with a non-abort error. -/
theorem weather_status_partition :
    ∀ (latStr lonStr : Option String) (cached : Option Resp) (nowIso : String)
      (u1 u2 : UResult) (f : LegacyFetch),
      (∀ r : Resp, cached = some r → r.status = 200) →
      ((handleWeatherNow latStr lonStr cached nowIso u1 u2).1.status = 200
        ∨ (handleWeatherNow latStr lonStr cached nowIso u1 u2).1.status = 400
        ∨ (handleWeatherNow latStr lonStr cached nowIso u1 u2).1.status = 502
        ∨ (handleWeatherNow latStr lonStr cached nowIso u1 u2).1.status = 504)
      ∧ ((weatherLegacy latStr lonStr cached nowIso f).status = 200
        ∨ (weatherLegacy latStr lonStr cached nowIso f).status = 400
        ∨ (weatherLegacy latStr lonStr cached nowIso f).status = 500
        ∨ (weatherLegacy latStr lonStr cached nowIso f).status = 502
        ∨ (weatherLegacy latStr lonStr cached nowIso f).status = 504) := by
  intro latStr lonStr cached nowIso u1 u2 f hcache
  constructor
  · cases h1 : (!truthy latStr || !truthy lonStr) with
    | true =>
      right; left
      simp [handleWeatherNow, h1]
      rfl
    | false =>
      simp only [handleWeatherNow, h1, Bool.false_eq_true, if_false]
      cases h2 : jsNumber (latStr.getD "") with
      | none =>
        right; left
        simp [h2]
        rfl
      | some lat =>
        cases h3 : jsNumber (lonStr.getD "") with
        | none =>
          right; left
          simp [h2, h3]
          rfl
        | some lon =>
          simp only [h2, h3]
          by_cases h4 : ¬(-90 ≤ lat ∧ lat ≤ 90) ∨ ¬(-180 ≤ lon ∧ lon ≤ 180)
          · right; left
            rw [if_pos h4]
            rfl
          · rw [if_neg h4]
            cases cached with
            | some r => left; exact hcache r rfl
            | none =>
              rcases runWeatherLoop_status ((weatherProviders nowIso lat lon).zip
                  [u1, u2]) with h | h | h
              · left; exact h
              · right; right; left; exact h
              · right; right; right; exact h
  · cases h1 : (!truthy latStr || !truthy lonStr) with
    | true =>
      right; left
      simp [weatherLegacy, h1]
      rfl
    | false =>
      simp only [weatherLegacy, h1, Bool.false_eq_true, if_false]
      cases h2 : jsNumber (latStr.getD "") with
      | none =>
        right; left
        simp [h2]
        rfl
      | some lat =>
        cases h3 : jsNumber (lonStr.getD "") with
        | none =>
          right; left
          simp [h2, h3]
          rfl
        | some lon =>
          simp only [h2, h3]
          by_cases h4 : lat < -90 ∨ lat > 90 ∨ lon < -180 ∨ lon > 180
          · right; left
            rw [if_pos h4]
            rfl
          · rw [if_neg h4]
            cases cached with
            | some r => left; exact hcache r rfl
            | none =>
              cases f with
              | ok s d =>
                by_cases hok : (!isOk s) = true
                · right; right; right; left
                  show (if (!isOk s) = true then upstreamErrResp s
                    else weatherSuccessResp
                      (parseOpenMeteoNow nowIso d lat lon)).status = 502
                  rw [if_pos hok]
                  rfl
                · left
                  show (if (!isOk s) = true then upstreamErrResp s
                    else weatherSuccessResp
                      (parseOpenMeteoNow nowIso d lat lon)).status = 200
                  rw [if_neg hok]
                  rfl
              | abortE => right; right; right; right; rfl
              | otherE => right; right; left; rfl

/-- Counterexample for C5: the legacy `/weather` handler's catch branch
returns 500 when the fetch fails with an error that is not an abort
(`src/src/index.ts` line 232), a status outside the claimed set. -/
theorem weather_status_counterexample :
    (weatherLegacy (some "50") (some "14") none "2026-01-01T00:00:00.000Z"
        LegacyFetch.otherE).status = 500
    ∧ ((500 : ℕ) ≠ 200 ∧ (500 : ℕ) ≠ 400 ∧ (500 : ℕ) ≠ 502 ∧ (500 : ℕ) ≠ 504) :=
  ⟨rfl, by norm_num⟩

/-- Witness for C5: at a concrete valid request with a cache miss and an
aborted fetch, both handlers answer within their proved status sets. -/
theorem weather_status_partition_witness :
    ((handleWeatherNow (some "50") (some "14") none "2026-01-01T00:00:00.000Z"
        UResult.errU UResult.errU).1.status = 200
      ∨ (handleWeatherNow (some "50") (some "14") none "2026-01-01T00:00:00.000Z"
        UResult.errU UResult.errU).1.status = 400
      ∨ (handleWeatherNow (some "50") (some "14") none "2026-01-01T00:00:00.000Z"
        UResult.errU UResult.errU).1.status = 502
      ∨ (handleWeatherNow (some "50") (some "14") none "2026-01-01T00:00:00.000Z"
        UResult.errU UResult.errU).1.status = 504)
    ∧ ((weatherLegacy (some "50") (some "14") none "2026-01-01T00:00:00.000Z"
        LegacyFetch.abortE).status = 200
      ∨ (weatherLegacy (some "50") (some "14") none "2026-01-01T00:00:00.000Z"
        LegacyFetch.abortE).status = 400
      ∨ (weatherLegacy (some "50") (some "14") none "2026-01-01T00:00:00.000Z"
        LegacyFetch.abortE).status = 500
      ∨ (weatherLegacy (some "50") (some "14") none "2026-01-01T00:00:00.000Z"
        LegacyFetch.abortE).status = 502
      ∨ (weatherLegacy (some "50") (some "14") none "2026-01-01T00:00:00.000Z"
        LegacyFetch.abortE).status = 504) :=
  ⟨(weather_status_partition (some "50") (some "14") none "2026-01-01T00:00:00.000Z"
      UResult.errU UResult.errU LegacyFetch.abortE
      (fun _ h => Option.noConfusion h)).1,
   (weather_status_partition (some "50") (some "14") none "2026-01-01T00:00:00.000Z"
      UResult.errU UResult.errU LegacyFetch.abortE
      (fun _ h => Option.noConfusion h)).2⟩

/-- C8 (amended): on the forecast endpoint a truthy (nonempty) `q` together
with a truthy `lat` or `lon` yields 400; with `q` absent or empty, failing
to supply both `lat` and `lon` truthy yields 400; and a 200 response is
only possible when exactly one of truthy-`q` or the truthy (`lat`,`lon`)
pair is supplied.  Empty-valued parameters behave as absent, because the
handler tests JavaScript string truthiness. -/
theorem forecast_param_exclusivity :
    ∀ (q latStr lonStr daysStr : Option String) (geo : GeoUp) (fc : FcUp),
      (truthy q = true → (truthy latStr || truthy lonStr) = true →
        (handleWeatherForecast q latStr lonStr daysStr geo fc).1.status = 400)
      ∧ (truthy q = false → (truthy latStr && truthy lonStr) = false →
        (handleWeatherForecast q latStr lonStr daysStr geo fc).1.status = 400)
      ∧ ((handleWeatherForecast q latStr lonStr daysStr geo fc).1.status = 200 →
        (truthy q = true ∧ truthy latStr = false ∧ truthy lonStr = false)
        ∨ (truthy q = false ∧ truthy latStr = true ∧ truthy lonStr = true)) := by
  intro q latStr lonStr daysStr geo fc
  refine ⟨?_, ?_, ?_⟩
  · intro hq hor
    simp [handleWeatherForecast, parseForecastQuery, hq, hor]
  · intro hq hand
    cases hlt : truthy latStr with
    | false =>
      simp [handleWeatherForecast, parseForecastQuery, hq, hlt]
    | true =>
      cases hlnt : truthy lonStr with
      | false =>
        simp [handleWeatherForecast, parseForecastQuery, hq, hlt, hlnt]
      | true =>
        rw [hlt, hlnt] at hand
        simp at hand
  · intro h200
    cases hq : truthy q with
    | true =>
      cases hlt : truthy latStr with
      | true =>
        simp [handleWeatherForecast, parseForecastQuery, hq, hlt] at h200
      | false =>
        cases hlnt : truthy lonStr with
        | true =>
          simp [handleWeatherForecast, parseForecastQuery, hq, hlt, hlnt] at h200
        | false => exact Or.inl ⟨rfl, rfl, rfl⟩
    | false =>
      cases hlt : truthy latStr with
      | false =>
        simp [handleWeatherForecast, parseForecastQuery, hq, hlt] at h200
      | true =>
        cases hlnt : truthy lonStr with
        | false =>
          simp [handleWeatherForecast, parseForecastQuery, hq, hlt, hlnt] at h200
        | true => exact Or.inr ⟨rfl, rfl, rfl⟩

/-- Counterexample for C8: the `q` parameter supplied with an empty value
alongside valid coordinates is treated as absent (JS truthiness), so the
request reaches the coordinate path and can answer 200, where the claim
requires 400 whenever `q` is supplied together with `lat` or `lon`. -/
theorem forecast_param_counterexample :
    (handleWeatherForecast (some "") (some "50") (some "14") none GeoUp.emptyG
        (FcUp.okFc (J.obj []))).1.status = 200
    ∧ (handleWeatherForecast (some "") (some "50") (some "14") none GeoUp.emptyG
        (FcUp.okFc (J.obj []))).1.status ≠ 400 := by
  have h : (handleWeatherForecast (some "") (some "50") (some "14") none
      GeoUp.emptyG (FcUp.okFc (J.obj []))).1.status = 200 := rfl
  exact ⟨h, by rw [h]; norm_num⟩

/-- Witness for C8: `q=Prague` together with `lat=50,lon=14` is rejected
with 400 (the test suite's own case), and omitting everything is rejected
with 400 as well. -/
theorem forecast_param_exclusivity_witness :
    (handleWeatherForecast (some "Prague") (some "50") (some "14") none
        GeoUp.emptyG (FcUp.okFc (J.obj []))).1.status = 400
    ∧ (handleWeatherForecast none none none none GeoUp.emptyG
        (FcUp.okFc (J.obj []))).1.status = 400 :=
  ⟨(forecast_param_exclusivity (some "Prague") (some "50") (some "14") none
      GeoUp.emptyG (FcUp.okFc (J.obj []))).1 rfl rfl,
   (forecast_param_exclusivity none none none none GeoUp.emptyG
      (FcUp.okFc (J.obj []))).2.1 rfl rfl⟩

/-- C4 (spec-modelled): the exchange-rates route accepts an optional `base`
(defaulting to USD) and optional `symbols`, answers 200 with a JSON body of
shape base/date/rates on upstream success, and 502 on upstream failure. -/
theorem rates_route_shape :
    ∀ (base symbols : Option String) (up : RatesUp),
      (∀ s : ℕ, up = RatesUp.failR s →
        (handleRates base symbols up).status = 502)
      ∧ (∀ (d : String) (rs : List (String × ℚ)), up = RatesUp.okR d rs →
        (handleRates base symbols up).status = 200
        ∧ (bodyJson (handleRates base symbols up)).isSome = true
        ∧ ((bodyJson (handleRates base symbols up)).bind (fun j => jget j "base"))
            = some (J.str (if truthy base then base.getD "USD" else "USD"))
        ∧ ((bodyJson (handleRates base symbols up)).bind (fun j => jget j "date"))
            = some (J.str d)
        ∧ ((bodyJson (handleRates base symbols up)).bind (fun j => jget j "rates"))
            = some (J.obj (rs.map (fun p => (p.1, J.num p.2)))))
      ∧ (base = none → ∀ (d : String) (rs : List (String × ℚ)),
          up = RatesUp.okR d rs →
          ((bodyJson (handleRates base symbols up)).bind (fun j => jget j "base"))
            = some (J.str "USD")) := by
  intro base symbols up
  refine ⟨?_, ?_, ?_⟩
  · intro s h
    subst h
    rfl
  · intro d rs h
    subst h
    exact ⟨rfl, rfl, rfl, rfl, rfl⟩
  · intro hb d rs h
    subst h
    subst hb
    rfl

/-- Witness for C4: with no `base` supplied and a successful upstream, the
route answers 200 and the body's `base` field is the default USD. -/
theorem rates_route_shape_witness :
    (handleRates none none (RatesUp.okR "2026-01-01" [("EUR", 1)])).status = 200
    ∧ ((bodyJson (handleRates none none (RatesUp.okR "2026-01-01" [("EUR", 1)]))).bind
        (fun j => jget j "base")) = some (J.str "USD")
    ∧ (handleRates none none (RatesUp.failR 503)).status = 502 :=
  ⟨((rates_route_shape none none (RatesUp.okR "2026-01-01" [("EUR", 1)])).2.1
      "2026-01-01" [("EUR", 1)] rfl).1,
   (rates_route_shape none none (RatesUp.okR "2026-01-01" [("EUR", 1)])).2.2
      rfl "2026-01-01" [("EUR", 1)] rfl,
   (rates_route_shape none none (RatesUp.failR 503)).1 503 rfl⟩
